import Mathlib

/-!
# Verification of the lastfm-music-app client orchestration logic

Shallow embedding of the client-side image/personality pipeline of
`src/public/scripts/app.js` and of the server-side personality analysis of
the personality-headlines module, together with proofs of the frozen claims.

JavaScript conventions used throughout the embedding:
* 32-bit integer operations (`<<`, `^`, `|`, `>>>`, `Math.imul`) are modelled
  on the unsigned-32-bit representative, i.e. as `Nat` arithmetic explicitly
  reduced `% 4294967296` (= 2^32); bitwise xor/or/shift on two values below
  2^32 agree with the JS int32 operations on their two's-complement bit
  patterns.
* `String.prototype.charCodeAt` yields UTF-16 code units; `codeUnits` below
  reproduces this, including surrogate-pair splitting for astral code points.
* `String.prototype.toLowerCase` is modelled by `String.toLower` (ASCII case
  folding; artist names and usernames are treated as ASCII-cased text).
* JS `Array.prototype.sort()` on an array of strings sorts by code-unit
  lexicographic order; since that order is total and antisymmetric, its result
  is the unique sorted permutation, which we obtain with `List.insertionSort`.
-/

namespace MusicApp

/-- Last.fm artist entry as consumed by `generatePersonalitySeed`:
`{ name, playcount }` (`url`/`mbid` do not enter the seed). -/
structure Artist where
  name : String
  playcount : Nat
deriving DecidableEq, Repr

/-- UTF-16 code units of one character, as `String.prototype.charCodeAt`
enumerates them (surrogate pair for code points at or above 0x10000). -/
def codeUnits (c : Char) : List Nat :=
  if c.toNat < 65536 then [c.toNat]
  else
    let v := c.toNat - 65536
    [55296 + v / 1024, 56320 + v % 1024]

/-- All UTF-16 code units of a string, in order. -/
def utf16CodeUnits (s : String) : List Nat :=
  (s.data.map codeUnits).flatten

/-- JS `String.prototype.toLowerCase` (ASCII case folding, per character;
`Char.toLower` lowers exactly the ASCII uppercase range). -/
def jsToLower (s : String) : String :=
  ⟨s.data.map Char.toLower⟩

/-- One iteration of the djb2 loop of `hashString` in `app.js`:
`hash = ((hash << 5) + hash) ^ str.charCodeAt(i)` on the uint32
representative ( (hash << 5) + hash ≡ 33 * hash ). -/
def hashStep (h c : Nat) : Nat :=
  (33 * h % 4294967296) ^^^ c

/-- `hashString` from `app.js` (djb2 with xor, result converted to
unsigned 32-bit by `>>> 0`). -/
def hashString (s : String) : Nat :=
  (utf16CodeUnits s).foldl hashStep 5381

/-- The per-artist fragment of the seed data string:
`${a.name.toLowerCase()}:${a.playcount}`. -/
def entryString (a : Artist) : String :=
  jsToLower a.name ++ ":" ++ toString a.playcount

/-- JS `Array.prototype.sort()` on strings: the sorted-by-(≤) permutation. -/
def jsSortStrings (l : List String) : List String :=
  l.insertionSort (· ≤ ·)

/-- The data string hashed by `generatePersonalitySeed`:
`username.toLowerCase() + '|' + artists.map(...).sort().join(',')`. -/
def dataString (username : String) (artists : List Artist) : String :=
  jsToLower username ++ "|" ++ String.intercalate "," (jsSortStrings (artists.map entryString))

/-- `generatePersonalitySeed` from `app.js`. -/
def generatePersonalitySeed (username : String) (artists : List Artist) : Nat :=
  hashString (dataString username artists)

/-- Internal state of mulberry32 (`createSeededRandom`) after `n` calls:
`seed |= 0; seed = (seed + 0x6d2b79f5) | 0` per call, on the uint32
representative. -/
def mulberryState (seed : Nat) : Nat → Nat
  | 0 => seed % 4294967296
  | n + 1 => (mulberryState seed n + 0x6d2b79f5) % 4294967296

/-- The output mixing of one mulberry32 call, producing the raw 32-bit
value `(t ^ (t >>> 14)) >>> 0` (the JS function returns this divided
by 2^32). -/
def mulberryOut (s : Nat) : Nat :=
  let t1 := ((s ^^^ (s >>> 15)) * (s ||| 1)) % 4294967296
  let t2 := ((t1 + ((t1 ^^^ (t1 >>> 7)) * (t1 ||| 61)) % 4294967296) % 4294967296) ^^^ t1
  t2 ^^^ (t2 >>> 14)

/-- The `n`-th (0-based) raw 32-bit output of `createSeededRandom seed`. -/
def createSeededRandomN (seed : Nat) (n : Nat) : Nat :=
  mulberryOut (mulberryState seed (n + 1))

/-! ### Helper lemmas for C1 -/

theorem jsSortStrings_perm_invariant {l₁ l₂ : List String} (h : l₁.Perm l₂) :
    jsSortStrings l₁ = jsSortStrings l₂ := by
  have hs₁ := List.sorted_insertionSort (fun a b : String => a ≤ b) l₁
  have hs₂ := List.sorted_insertionSort (fun a b : String => a ≤ b) l₂
  have hp : (jsSortStrings l₁).Perm (jsSortStrings l₂) :=
    ((List.perm_insertionSort (fun a b : String => a ≤ b) l₁).trans h).trans
      (List.perm_insertionSort (fun a b : String => a ≤ b) l₂).symm
  exact List.eq_of_perm_of_sorted hp hs₁ hs₂

theorem dataString_perm_invariant (u : String) {l₁ l₂ : List Artist} (h : l₁.Perm l₂) :
    dataString u l₁ = dataString u l₂ := by
  unfold dataString
  rw [jsSortStrings_perm_invariant (h.map entryString)]

theorem codeUnits_lt (c : Char) : ∀ u ∈ codeUnits c, u < 4294967296 := by
  intro u hu
  have hc : c.toNat < 4294967296 := Nat.lt_of_lt_of_le c.val.toNat_lt (by norm_num)
  unfold codeUnits at hu
  split at hu
  · simp only [List.mem_singleton] at hu
    omega
  · simp only [List.mem_cons, List.mem_singleton, List.not_mem_nil, or_false] at hu
    rcases hu with hu | hu
    · have : (c.toNat - 65536) / 1024 ≤ c.toNat - 65536 := Nat.div_le_self _ _
      omega
    · have : (c.toNat - 65536) % 1024 < 1024 := Nat.mod_lt _ (by norm_num)
      omega

theorem hashStep_lt (h : Nat) {c : Nat} (hc : c < 4294967296) :
    hashStep h c < 4294967296 := by
  have h1 : 33 * h % 4294967296 < 4294967296 := Nat.mod_lt _ (by norm_num)
  have h2 : (4294967296 : Nat) = 2 ^ 32 := by norm_num
  calc (33 * h % 4294967296) ^^^ c < 2 ^ 32 :=
        Nat.xor_lt_two_pow (h2 ▸ h1) (h2 ▸ hc)
    _ = 4294967296 := h2.symm

theorem foldl_hashStep_lt : ∀ (l : List Nat) (acc : Nat), (∀ c ∈ l, c < 4294967296) →
    acc < 4294967296 → l.foldl hashStep acc < 4294967296 := by
  intro l
  induction l with
  | nil => intro acc _ ha; simpa using ha
  | cons c t ih =>
    intro acc hl _
    simp only [List.foldl_cons]
    exact ih (hashStep acc c) (fun x hx => hl x (List.mem_cons_of_mem _ hx))
      (hashStep_lt acc (hl c (List.mem_cons_self _ _)))

theorem hashString_lt (s : String) : hashString s < 4294967296 := by
  apply foldl_hashStep_lt _ _ _ (by norm_num)
  intro c hc
  unfold utf16CodeUnits at hc
  rw [List.mem_flatten] at hc
  obtain ⟨l, hl, hcl⟩ := hc
  rw [List.mem_map] at hl
  obtain ⟨ch, _, rfl⟩ := hl
  exact codeUnits_lt ch c hcl

/-- **C1.** For every username and artist list, `generatePersonalitySeed` is a
pure function producing a 32-bit seed that is invariant under any permutation
of the artist list (the hash is taken over lower-cased `name:playcount` pairs
sorted deterministically); consequently the color PRNG stream (seeded with
`seed + 2000`) and the headline-request seed stream (seeded with
`seed + 1000`) are identical for the permuted lists, and the two streams are
seeded with distinct offsets. -/
theorem generatePersonalitySeed_deterministic (u : String) (l₁ l₂ : List Artist)
    (h : l₁.Perm l₂) :
    generatePersonalitySeed u l₁ = generatePersonalitySeed u l₂ ∧
    generatePersonalitySeed u l₁ < 4294967296 ∧
    (∀ n, createSeededRandomN (generatePersonalitySeed u l₁ + 2000) n =
          createSeededRandomN (generatePersonalitySeed u l₂ + 2000) n) ∧
    (∀ n, createSeededRandomN (generatePersonalitySeed u l₁ + 1000) n =
          createSeededRandomN (generatePersonalitySeed u l₂ + 1000) n) ∧
    generatePersonalitySeed u l₁ + 2000 ≠ generatePersonalitySeed u l₁ + 1000 := by
  have hseed : generatePersonalitySeed u l₁ = generatePersonalitySeed u l₂ := by
    unfold generatePersonalitySeed
    rw [dataString_perm_invariant u h]
  refine ⟨hseed, hashString_lt _, ?_, ?_, ?_⟩
  · intro n; rw [hseed]
  · intro n; rw [hseed]
  · omega

/-- Witness for C1 at a concrete input: the two-element artist list in both
orders yields the same seed, identical derived streams, and distinct offsets. -/
theorem generatePersonalitySeed_deterministic_witness :
    ([Artist.mk "Radiohead" 42, Artist.mk "Burial" 7].Perm
      [Artist.mk "Burial" 7, Artist.mk "Radiohead" 42]) ∧
    (generatePersonalitySeed "solitude12" [Artist.mk "Radiohead" 42, Artist.mk "Burial" 7] =
      generatePersonalitySeed "solitude12" [Artist.mk "Burial" 7, Artist.mk "Radiohead" 42] ∧
    generatePersonalitySeed "solitude12" [Artist.mk "Radiohead" 42, Artist.mk "Burial" 7] <
      4294967296 ∧
    (∀ n, createSeededRandomN (generatePersonalitySeed "solitude12"
        [Artist.mk "Radiohead" 42, Artist.mk "Burial" 7] + 2000) n =
      createSeededRandomN (generatePersonalitySeed "solitude12"
        [Artist.mk "Burial" 7, Artist.mk "Radiohead" 42] + 2000) n) ∧
    (∀ n, createSeededRandomN (generatePersonalitySeed "solitude12"
        [Artist.mk "Radiohead" 42, Artist.mk "Burial" 7] + 1000) n =
      createSeededRandomN (generatePersonalitySeed "solitude12"
        [Artist.mk "Burial" 7, Artist.mk "Radiohead" 42] + 1000) n) ∧
    generatePersonalitySeed "solitude12" [Artist.mk "Radiohead" 42, Artist.mk "Burial" 7] +
      2000 ≠
    generatePersonalitySeed "solitude12" [Artist.mk "Radiohead" 42, Artist.mk "Burial" 7] +
      1000) :=
  ⟨by decide, generatePersonalitySeed_deterministic "solitude12" _ _ (by decide)⟩

/-! ### C2: Discogs image selection (`fetchDiscogsImageById`) -/

/-- One entry of a Discogs artist response's `images` array, with the fields
`fetchDiscogsImageById` inspects (`uri`, `type`, `width`, `height`; the API
returns numeric dimensions on every entry, `uri` may be absent). -/
structure DiscogsImage where
  uri : Option String
  imgType : String
  width : Nat
  height : Nat
deriving DecidableEq, Repr

/-- Does `pat` occur as a contiguous sublist starting anywhere in `l`? -/
def containsAt (pat : List Char) : List Char → Bool
  | [] => pat.isEmpty
  | c :: rest => pat.isPrefixOf (c :: rest) || containsAt pat rest

/-- JS `s.includes(pat)`. -/
def jsIncludes (s pat : String) : Bool :=
  containsAt pat.data s.data

/-- `isValidDiscogsImage` from `app.js`: rejects a missing URL, a URL
containing `spacer.gif`, and the empty string (`!url` already covers the
empty string; the explicit `url === ''` check of the source is subsumed). -/
def isValidDiscogsImage : Option String → Bool
  | none => false
  | some url =>
      if url = "" then false
      else if jsIncludes url "spacer.gif" then false
      else true

/-- `CONFIG.tileSize * 3` — the 750px size floor of `fetchDiscogsImageById`. -/
def MIN_SIZE : Nat := 250 * 3

/-- The selection logic of `fetchDiscogsImageById` applied to a parsed
response's `images` array (the network/rate-limiter wrapper around it only
produces this array or a null early-return): filter valid images, prefer a
`primary`-typed image meeting the size floor, else the first image meeting
the floor, else the primary image or the first valid one. An empty `images`
array and an empty filter result both return null, as in the source. -/
def selectDiscogsImage (images : List DiscogsImage) : Option String :=
  match images.filter (fun img => isValidDiscogsImage img.uri) with
  | [] => none
  | v :: vs =>
      let validImages := v :: vs
      let primaryImage := validImages.find? (fun img => img.imgType == "primary")
      let largeImage := validImages.find?
        (fun img => decide (MIN_SIZE ≤ img.width) && decide (MIN_SIZE ≤ img.height))
      match primaryImage with
      | some p =>
          if MIN_SIZE ≤ p.width ∧ MIN_SIZE ≤ p.height then p.uri
          else
            match largeImage with
            | some l => l.uri
            | none => p.uri
      | none =>
          match largeImage with
          | some l => l.uri
          | none => v.uri

/-- Concrete Discogs response for the C2 counterexample: two valid
non-primary images, both meeting the 750px floor, the second strictly
larger than the first. -/
def c2images : List DiscogsImage :=
  [⟨some "first.jpg", "secondary", 800, 800⟩,
   ⟨some "largest.jpg", "secondary", 1000, 1000⟩]

/-- **C2 counterexample.** The claim predicts that, with no primary image,
the largest image meeting the floor (1000×1000, `largest.jpg`) is returned;
the code returns the *first* image meeting the floor (`first.jpg`). -/
theorem fetchDiscogsImageById_not_largest :
    selectDiscogsImage c2images = some "first.jpg" ∧
    c2images.filter (fun img => isValidDiscogsImage img.uri) = c2images ∧
    c2images.find? (fun img => img.imgType == "primary") = none ∧
    (800 < 1000 ∧ MIN_SIZE ≤ 800) ∧
    some "first.jpg" ≠ some "largest.jpg" := by
  decide

theorem isValidDiscogsImage_some {u : String}
    (h : isValidDiscogsImage (some u) = true) :
    u ≠ "" ∧ jsIncludes u "spacer.gif" = false := by
  simp only [isValidDiscogsImage] at h
  by_cases h1 : u = ""
  · rw [if_pos h1] at h
    exact absurd h (by simp)
  · rw [if_neg h1] at h
    by_cases h2 : jsIncludes u "spacer.gif" = true
    · rw [if_pos h2] at h
      exact absurd h (by simp)
    · exact ⟨h1, by simpa using h2⟩

/-- **C2 (amended).** For every Discogs artist response whose image list
contains at least one valid image: `fetchDiscogsImageById` returns the
primary-flagged image when both its width and height meet the size floor
(3 × tile size = 750px); otherwise it returns the **first** image (in
response order) among those meeting the floor; otherwise it returns the
primary image or, lacking one, the first valid image — and the returned URL
is always a valid image's URL, so placeholder `spacer.gif` URLs and empty
URLs are never returned. -/
theorem fetchDiscogsImageById_selection (images : List DiscogsImage)
    (hne : images.filter (fun img => isValidDiscogsImage img.uri) ≠ []) :
    (∀ p, (images.filter (fun img => isValidDiscogsImage img.uri)).find?
          (fun img => img.imgType == "primary") = some p →
        MIN_SIZE ≤ p.width → MIN_SIZE ≤ p.height →
        selectDiscogsImage images = p.uri) ∧
    (∀ p q, (images.filter (fun img => isValidDiscogsImage img.uri)).find?
          (fun img => img.imgType == "primary") = some p →
        ¬(MIN_SIZE ≤ p.width ∧ MIN_SIZE ≤ p.height) →
        (images.filter (fun img => isValidDiscogsImage img.uri)).find?
          (fun img => decide (MIN_SIZE ≤ img.width) && decide (MIN_SIZE ≤ img.height)) =
            some q →
        selectDiscogsImage images = q.uri) ∧
    (∀ q, (images.filter (fun img => isValidDiscogsImage img.uri)).find?
          (fun img => img.imgType == "primary") = none →
        (images.filter (fun img => isValidDiscogsImage img.uri)).find?
          (fun img => decide (MIN_SIZE ≤ img.width) && decide (MIN_SIZE ≤ img.height)) =
            some q →
        selectDiscogsImage images = q.uri) ∧
    (∀ p, (images.filter (fun img => isValidDiscogsImage img.uri)).find?
          (fun img => img.imgType == "primary") = some p →
        ¬(MIN_SIZE ≤ p.width ∧ MIN_SIZE ≤ p.height) →
        (images.filter (fun img => isValidDiscogsImage img.uri)).find?
          (fun img => decide (MIN_SIZE ≤ img.width) && decide (MIN_SIZE ≤ img.height)) =
            none →
        selectDiscogsImage images = p.uri) ∧
    ((images.filter (fun img => isValidDiscogsImage img.uri)).find?
          (fun img => img.imgType == "primary") = none →
        (images.filter (fun img => isValidDiscogsImage img.uri)).find?
          (fun img => decide (MIN_SIZE ≤ img.width) && decide (MIN_SIZE ≤ img.height)) =
            none →
        ∀ v, (images.filter (fun img => isValidDiscogsImage img.uri)).head? = some v →
        selectDiscogsImage images = v.uri) ∧
    (∃ img ∈ images.filter (fun img => isValidDiscogsImage img.uri),
        selectDiscogsImage images = img.uri) ∧
    (∀ u, selectDiscogsImage images = some u →
        u ≠ "" ∧ jsIncludes u "spacer.gif" = false) := by
  obtain ⟨v, vs, hv⟩ : ∃ v vs,
      images.filter (fun img => isValidDiscogsImage img.uri) = v :: vs := by
    cases hval : images.filter (fun img => isValidDiscogsImage img.uri) with
    | nil => exact absurd hval hne
    | cons a l => exact ⟨a, l, rfl⟩
  have hsel : selectDiscogsImage images =
      (match (v :: vs).find? (fun img => img.imgType == "primary") with
      | some p =>
          if MIN_SIZE ≤ p.width ∧ MIN_SIZE ≤ p.height then p.uri
          else
            match (v :: vs).find?
              (fun img => decide (MIN_SIZE ≤ img.width) && decide (MIN_SIZE ≤ img.height)) with
            | some l => l.uri
            | none => p.uri
      | none =>
          match (v :: vs).find?
            (fun img => decide (MIN_SIZE ≤ img.width) && decide (MIN_SIZE ≤ img.height)) with
          | some l => l.uri
          | none => v.uri) := by
    unfold selectDiscogsImage
    split
    · rename_i heq; rw [hv] at heq; exact absurd heq (by simp)
    · rename_i a l heq
      rw [hv] at heq
      cases heq
      rfl
  rw [hv]
  have hmain :
      (∀ p, (v :: vs).find? (fun img => img.imgType == "primary") = some p →
          MIN_SIZE ≤ p.width → MIN_SIZE ≤ p.height → selectDiscogsImage images = p.uri) ∧
      (∀ p q, (v :: vs).find? (fun img => img.imgType == "primary") = some p →
          ¬(MIN_SIZE ≤ p.width ∧ MIN_SIZE ≤ p.height) →
          (v :: vs).find?
            (fun img => decide (MIN_SIZE ≤ img.width) && decide (MIN_SIZE ≤ img.height)) =
              some q →
          selectDiscogsImage images = q.uri) ∧
      (∀ q, (v :: vs).find? (fun img => img.imgType == "primary") = none →
          (v :: vs).find?
            (fun img => decide (MIN_SIZE ≤ img.width) && decide (MIN_SIZE ≤ img.height)) =
              some q →
          selectDiscogsImage images = q.uri) ∧
      (∀ p, (v :: vs).find? (fun img => img.imgType == "primary") = some p →
          ¬(MIN_SIZE ≤ p.width ∧ MIN_SIZE ≤ p.height) →
          (v :: vs).find?
            (fun img => decide (MIN_SIZE ≤ img.width) && decide (MIN_SIZE ≤ img.height)) =
              none →
          selectDiscogsImage images = p.uri) ∧
      ((v :: vs).find? (fun img => img.imgType == "primary") = none →
          (v :: vs).find?
            (fun img => decide (MIN_SIZE ≤ img.width) && decide (MIN_SIZE ≤ img.height)) =
              none →
          ∀ w, (v :: vs).head? = some w → selectDiscogsImage images = w.uri) := by
    refine ⟨?_, ?_, ?_, ?_, ?_⟩
    · intro p hp hw hh
      rw [hsel, hp]
      simp [hw, hh]
    · intro p q hp hsize hq
      rw [hsel, hp]
      simp only [if_neg hsize, hq]
    · intro q hp hq
      rw [hsel, hp, hq]
    · intro p hp hsize hq
      rw [hsel, hp]
      simp only [if_neg hsize, hq]
    · intro hp hq w hw
      rw [hsel, hp, hq]
      simp only [List.head?_cons, Option.some.injEq] at hw
      rw [hw]
  obtain ⟨h1, h2, h3, h4, h5⟩ := hmain
  have hmem : ∃ img ∈ v :: vs, selectDiscogsImage images = img.uri := by
    cases hp : (v :: vs).find? (fun img => img.imgType == "primary") with
    | some p =>
      have hpmem : p ∈ v :: vs := List.mem_of_find?_eq_some hp
      by_cases hsize : MIN_SIZE ≤ p.width ∧ MIN_SIZE ≤ p.height
      · exact ⟨p, hpmem, h1 p hp hsize.1 hsize.2⟩
      · cases hq : (v :: vs).find?
            (fun img => decide (MIN_SIZE ≤ img.width) && decide (MIN_SIZE ≤ img.height)) with
        | some q => exact ⟨q, List.mem_of_find?_eq_some hq, h2 p q hp hsize hq⟩
        | none => exact ⟨p, hpmem, h4 p hp hsize hq⟩
    | none =>
      cases hq : (v :: vs).find?
          (fun img => decide (MIN_SIZE ≤ img.width) && decide (MIN_SIZE ≤ img.height)) with
      | some q => exact ⟨q, List.mem_of_find?_eq_some hq, h3 q hp hq⟩
      | none => exact ⟨v, List.mem_cons_self _ _, h5 hp hq v rfl⟩
  refine ⟨h1, h2, h3, h4, h5, hmem, ?_⟩
  intro u hu
  obtain ⟨img, himg, hres⟩ := hmem
  have hvalid : isValidDiscogsImage img.uri = true := by
    have := hv ▸ himg
    exact (List.mem_filter.mp this).2
  rw [hres] at hu
  rw [hu] at hvalid
  exact isValidDiscogsImage_some hvalid

/-- Witness for C2 (amended) at a concrete input: a single valid secondary
image below the size floor is returned as the first valid image. -/
theorem fetchDiscogsImageById_selection_witness :
    ([DiscogsImage.mk (some "a.jpg") "secondary" 100 100].filter
        (fun img => isValidDiscogsImage img.uri) ≠ []) ∧
    ((∀ p, ([DiscogsImage.mk (some "a.jpg") "secondary" 100 100].filter
          (fun img => isValidDiscogsImage img.uri)).find?
          (fun img => img.imgType == "primary") = some p →
        MIN_SIZE ≤ p.width → MIN_SIZE ≤ p.height →
        selectDiscogsImage [DiscogsImage.mk (some "a.jpg") "secondary" 100 100] = p.uri) ∧
    (∀ p q, ([DiscogsImage.mk (some "a.jpg") "secondary" 100 100].filter
          (fun img => isValidDiscogsImage img.uri)).find?
          (fun img => img.imgType == "primary") = some p →
        ¬(MIN_SIZE ≤ p.width ∧ MIN_SIZE ≤ p.height) →
        ([DiscogsImage.mk (some "a.jpg") "secondary" 100 100].filter
          (fun img => isValidDiscogsImage img.uri)).find?
          (fun img => decide (MIN_SIZE ≤ img.width) && decide (MIN_SIZE ≤ img.height)) =
            some q →
        selectDiscogsImage [DiscogsImage.mk (some "a.jpg") "secondary" 100 100] = q.uri) ∧
    (∀ q, ([DiscogsImage.mk (some "a.jpg") "secondary" 100 100].filter
          (fun img => isValidDiscogsImage img.uri)).find?
          (fun img => img.imgType == "primary") = none →
        ([DiscogsImage.mk (some "a.jpg") "secondary" 100 100].filter
          (fun img => isValidDiscogsImage img.uri)).find?
          (fun img => decide (MIN_SIZE ≤ img.width) && decide (MIN_SIZE ≤ img.height)) =
            some q →
        selectDiscogsImage [DiscogsImage.mk (some "a.jpg") "secondary" 100 100] = q.uri) ∧
    (∀ p, ([DiscogsImage.mk (some "a.jpg") "secondary" 100 100].filter
          (fun img => isValidDiscogsImage img.uri)).find?
          (fun img => img.imgType == "primary") = some p →
        ¬(MIN_SIZE ≤ p.width ∧ MIN_SIZE ≤ p.height) →
        ([DiscogsImage.mk (some "a.jpg") "secondary" 100 100].filter
          (fun img => isValidDiscogsImage img.uri)).find?
          (fun img => decide (MIN_SIZE ≤ img.width) && decide (MIN_SIZE ≤ img.height)) =
            none →
        selectDiscogsImage [DiscogsImage.mk (some "a.jpg") "secondary" 100 100] = p.uri) ∧
    (([DiscogsImage.mk (some "a.jpg") "secondary" 100 100].filter
          (fun img => isValidDiscogsImage img.uri)).find?
          (fun img => img.imgType == "primary") = none →
        ([DiscogsImage.mk (some "a.jpg") "secondary" 100 100].filter
          (fun img => isValidDiscogsImage img.uri)).find?
          (fun img => decide (MIN_SIZE ≤ img.width) && decide (MIN_SIZE ≤ img.height)) =
            none →
        ∀ v, ([DiscogsImage.mk (some "a.jpg") "secondary" 100 100].filter
          (fun img => isValidDiscogsImage img.uri)).head? = some v →
        selectDiscogsImage [DiscogsImage.mk (some "a.jpg") "secondary" 100 100] = v.uri) ∧
    (∃ img ∈ [DiscogsImage.mk (some "a.jpg") "secondary" 100 100].filter
          (fun img => isValidDiscogsImage img.uri),
        selectDiscogsImage [DiscogsImage.mk (some "a.jpg") "secondary" 100 100] = img.uri) ∧
    (∀ u, selectDiscogsImage [DiscogsImage.mk (some "a.jpg") "secondary" 100 100] = some u →
        u ≠ "" ∧ jsIncludes u "spacer.gif" = false)) :=
  ⟨by decide,
    fetchDiscogsImageById_selection [DiscogsImage.mk (some "a.jpg") "secondary" 100 100]
      (by decide)⟩

/-! ### C3 / C9: personality analysis (server module) and mood weights (client) -/

/-- Per-artist personality sample as assembled by the client
(`{ name, genre, style, mood, playcount }`); `playcount` is a JS number,
modelled as a rational. -/
structure PSample where
  name : String
  genre : Option String
  style : Option String
  mood : Option String
  playcount : ℚ
deriving DecidableEq, Repr

/-- JS `playcount || 1`: `0` is falsy and replaced by `1`. -/
def jsWeight (p : ℚ) : ℚ := if p = 0 then 1 else p

/-- JS truthiness of an optional string (`undefined`/`null` and `''` are
falsy). -/
def jsTruthy : Option String → Bool
  | none => false
  | some s => !(s == "")

/-- JS `a || b` on optional strings. -/
def jsOrStr (a b : Option String) : Option String :=
  if jsTruthy a then a else b

/-- `GENRE_FAMILY_MAP` from the personality-headlines module, in source
order. -/
def GENRE_FAMILY_MAP : List (String × String) := [
  ("rock", "rock"), ("alternative rock", "rock"), ("indie rock", "indie"),
  ("punk rock", "rock"), ("punk", "rock"), ("hard rock", "rock"),
  ("classic rock", "rock"), ("progressive rock", "rock"), ("prog rock", "rock"),
  ("psychedelic rock", "rock"), ("garage rock", "rock"), ("grunge", "rock"),
  ("post-rock", "rock"), ("post rock", "rock"), ("art rock", "rock"),
  ("glam rock", "rock"), ("blues rock", "rock"), ("southern rock", "rock"),
  ("stoner rock", "rock"), ("noise rock", "indie"), ("shoegaze", "indie"),
  ("dream pop", "indie"), ("britpop", "rock"), ("new wave", "rock"),
  ("post-punk", "indie"), ("post punk", "indie"), ("gothic rock", "rock"),
  ("emo", "rock"), ("screamo", "rock"), ("pop punk", "rock"),
  ("ska punk", "rock"), ("hardcore", "rock"), ("hardcore punk", "rock"),
  ("post-hardcore", "rock"),
  ("electronic", "electronic"), ("electronica", "electronic"), ("edm", "electronic"),
  ("house", "electronic"), ("deep house", "electronic"), ("tech house", "electronic"),
  ("progressive house", "electronic"), ("techno", "electronic"), ("trance", "electronic"),
  ("psytrance", "electronic"), ("drum and bass", "electronic"), ("dnb", "electronic"),
  ("dubstep", "electronic"), ("ambient", "electronic"), ("idm", "electronic"),
  ("downtempo", "electronic"), ("chillout", "electronic"), ("trip hop", "electronic"),
  ("trip-hop", "electronic"), ("breakbeat", "electronic"), ("jungle", "electronic"),
  ("garage", "electronic"), ("uk garage", "electronic"), ("synthwave", "electronic"),
  ("synthpop", "electronic"), ("synth-pop", "electronic"), ("electropop", "electronic"),
  ("industrial", "electronic"), ("ebm", "electronic"), ("darkwave", "electronic"),
  ("vaporwave", "electronic"), ("future bass", "electronic"), ("lo-fi", "electronic"),
  ("lofi", "electronic"),
  ("hip hop", "hip-hop"), ("hip-hop", "hip-hop"), ("rap", "hip-hop"),
  ("trap", "hip-hop"), ("gangsta rap", "hip-hop"), ("conscious hip hop", "hip-hop"),
  ("underground hip hop", "hip-hop"), ("alternative hip hop", "hip-hop"),
  ("boom bap", "hip-hop"), ("east coast hip hop", "hip-hop"),
  ("west coast hip hop", "hip-hop"), ("southern hip hop", "hip-hop"),
  ("dirty south", "hip-hop"), ("crunk", "hip-hop"), ("grime", "hip-hop"),
  ("drill", "hip-hop"), ("cloud rap", "hip-hop"), ("mumble rap", "hip-hop"),
  ("emo rap", "hip-hop"),
  ("indie", "indie"), ("indie pop", "indie"), ("indie folk", "folk"),
  ("alternative", "indie"), ("lo-fi indie", "indie"), ("chamber pop", "indie"),
  ("baroque pop", "indie"), ("art pop", "indie"), ("experimental", "indie"),
  ("avant-garde", "indie"), ("math rock", "indie"), ("midwest emo", "indie"),
  ("slowcore", "indie"), ("sadcore", "indie"),
  ("pop", "pop"), ("dance pop", "pop"), ("teen pop", "pop"), ("power pop", "pop"),
  ("adult contemporary", "pop"), ("soft rock", "pop"), ("bubblegum pop", "pop"),
  ("k-pop", "pop"), ("j-pop", "pop"), ("c-pop", "pop"), ("latin pop", "pop"),
  ("europop", "pop"), ("disco", "pop"), ("funk", "r&b"),
  ("jazz", "jazz"), ("smooth jazz", "jazz"), ("acid jazz", "jazz"),
  ("jazz fusion", "jazz"), ("bebop", "jazz"), ("hard bop", "jazz"),
  ("cool jazz", "jazz"), ("free jazz", "jazz"), ("modal jazz", "jazz"),
  ("swing", "jazz"), ("big band", "jazz"), ("latin jazz", "jazz"),
  ("bossa nova", "jazz"), ("nu jazz", "jazz"),
  ("metal", "metal"), ("heavy metal", "metal"), ("thrash metal", "metal"),
  ("death metal", "metal"), ("black metal", "metal"), ("doom metal", "metal"),
  ("power metal", "metal"), ("progressive metal", "metal"), ("prog metal", "metal"),
  ("symphonic metal", "metal"), ("folk metal", "metal"), ("viking metal", "metal"),
  ("gothic metal", "metal"), ("nu metal", "metal"), ("metalcore", "metal"),
  ("deathcore", "metal"), ("djent", "metal"), ("sludge metal", "metal"),
  ("stoner metal", "metal"), ("groove metal", "metal"), ("speed metal", "metal"),
  ("grindcore", "metal"),
  ("folk", "folk"), ("folk rock", "folk"), ("americana", "folk"),
  ("bluegrass", "folk"), ("country folk", "folk"), ("celtic", "folk"),
  ("irish folk", "folk"), ("scottish folk", "folk"), ("traditional folk", "folk"),
  ("contemporary folk", "folk"), ("singer-songwriter", "folk"), ("acoustic", "folk"),
  ("neofolk", "folk"), ("freak folk", "folk"), ("anti-folk", "folk"),
  ("world music", "folk"),
  ("r&b", "r&b"), ("rnb", "r&b"), ("rhythm and blues", "r&b"), ("soul", "r&b"),
  ("neo soul", "r&b"), ("neo-soul", "r&b"), ("motown", "r&b"),
  ("contemporary r&b", "r&b"), ("quiet storm", "r&b"), ("new jack swing", "r&b"),
  ("gospel", "r&b"), ("blues", "r&b"),
  ("classical", "classical"), ("orchestra", "classical"), ("orchestral", "classical"),
  ("symphony", "classical"), ("chamber music", "classical"), ("opera", "classical"),
  ("baroque", "classical"), ("romantic", "classical"),
  ("contemporary classical", "classical"), ("minimalism", "classical"),
  ("neoclassical", "classical"), ("impressionist", "classical"),
  ("country", "country"), ("country rock", "country"), ("alt-country", "country"),
  ("outlaw country", "country"), ("country pop", "country"), ("honky tonk", "country"),
  ("western", "country"), ("nashville sound", "country"), ("bro-country", "country"),
  ("texas country", "country"), ("red dirt", "country")]

/-- `MOOD_MAP` from the personality-headlines module, in source order. -/
def MOOD_MAP : List (String × String) := [
  ("happy", "happy"), ("joyful", "happy"), ("cheerful", "happy"),
  ("uplifting", "happy"), ("upbeat", "happy"), ("euphoric", "happy"),
  ("elated", "happy"), ("optimistic", "happy"), ("playful", "happy"),
  ("fun", "happy"), ("celebratory", "happy"), ("triumphant", "happy"),
  ("bright", "happy"), ("sunny", "happy"), ("positive", "happy"),
  ("exuberant", "happy"), ("gleeful", "happy"), ("blissful", "happy"),
  ("sad", "sad"), ("melancholic", "sad"), ("melancholy", "sad"),
  ("sorrowful", "sad"), ("mournful", "sad"), ("heartbroken", "sad"),
  ("lonely", "sad"), ("longing", "sad"), ("wistful", "sad"),
  ("bittersweet", "sad"), ("nostalgic", "sad"), ("reflective", "sad"),
  ("yearning", "sad"), ("grieving", "sad"), ("depressed", "sad"),
  ("blue", "sad"), ("pensive", "sad"), ("tender", "sad"),
  ("angry", "angry"), ("aggressive", "angry"), ("intense", "angry"),
  ("fierce", "angry"), ("furious", "angry"), ("rebellious", "angry"),
  ("defiant", "angry"), ("confrontational", "angry"), ("hostile", "angry"),
  ("violent", "angry"), ("rage", "angry"), ("raging", "angry"),
  ("hateful", "angry"), ("bitter", "angry"), ("raw", "angry"),
  ("brutal", "angry"),
  ("relaxed", "relaxed"), ("calm", "relaxed"), ("peaceful", "relaxed"),
  ("serene", "relaxed"), ("tranquil", "relaxed"), ("mellow", "relaxed"),
  ("soothing", "relaxed"), ("gentle", "relaxed"), ("soft", "relaxed"),
  ("easy", "relaxed"), ("laid-back", "relaxed"), ("chill", "relaxed"),
  ("ambient", "relaxed"), ("quiet", "relaxed"), ("dreamy", "relaxed"),
  ("ethereal", "relaxed"), ("meditative", "relaxed"), ("contemplative", "relaxed"),
  ("energetic", "energetic"), ("exciting", "energetic"), ("dynamic", "energetic"),
  ("powerful", "energetic"), ("driving", "energetic"), ("pumping", "energetic"),
  ("electric", "energetic"), ("vibrant", "energetic"), ("lively", "energetic"),
  ("spirited", "energetic"), ("passionate", "energetic"), ("fiery", "energetic"),
  ("wild", "energetic"), ("hyper", "energetic"), ("thrilling", "energetic"),
  ("exhilarating", "energetic"), ("urgent", "energetic"), ("restless", "energetic"),
  ("dark", "dark"), ("brooding", "dark"), ("moody", "dark"),
  ("mysterious", "dark"), ("haunting", "dark"), ("eerie", "dark"),
  ("ominous", "dark"), ("sinister", "dark"), ("gothic", "dark"),
  ("somber", "dark"), ("gloomy", "dark"), ("bleak", "dark"),
  ("atmospheric", "dark"), ("shadowy", "dark"), ("nocturnal", "dark"),
  ("cryptic", "dark"), ("foreboding", "dark"), ("menacing", "dark")]

/-- JS object property read `m[k]` on a string-keyed table modelled as an
association list with unique keys. -/
def lookupMap (m : List (String × String)) (k : String) : Option String :=
  (m.find? (fun e => e.fst == k)).map (fun e => e.snd)

/-- `obj[k] = (obj[k] || 0) + w` on a JS object used as a counter: updates
the existing entry in place or appends a new one (JS objects preserve
insertion order for string keys). -/
def bump (k : String) (w : ℚ) : List (String × ℚ) → List (String × ℚ)
  | [] => [(k, w)]
  | (k', v) :: t => if k' = k then (k', v + w) :: t else (k', v) :: bump k w t

/-- The `moodCounts` object built by `analyzePersonality` in the
personality-headlines module: play-count-weighted totals per normalized
mood, in first-occurrence order. -/
def moodCountsOf (artists : List PSample) : List (String × ℚ) :=
  artists.foldl (fun acc a =>
    if jsTruthy a.mood then
      match lookupMap MOOD_MAP (jsToLower (a.mood.getD "")) with
      | some nm => bump nm (jsWeight a.playcount) acc
      | none => acc
    else acc) []

/-- The `genreCounts` object built by `analyzePersonality`: weighted totals
per normalized genre family of `artist.genre || artist.style`. -/
def genreCountsOf (artists : List PSample) : List (String × ℚ) :=
  artists.foldl (fun acc a =>
    if jsTruthy (jsOrStr a.genre a.style) then
      match lookupMap GENRE_FAMILY_MAP (jsToLower ((jsOrStr a.genre a.style).getD "")) with
      | some ng => bump ng (jsWeight a.playcount) acc
      | none => acc
    else acc) []

/-- `totalPlays` of `analyzePersonality`: the summed weight of **all**
artists, whether or not their mood/genre resolved. -/
def totalPlaysOf (artists : List PSample) : ℚ :=
  artists.foldl (fun acc a => acc + jsWeight a.playcount) 0

/-- One step of the dominant-entry scan
(`if (count > maxCount) update` over `Object.entries`). -/
def scanStep (best e : String × ℚ) : String × ℚ :=
  if best.2 < e.2 then e else best

/-- The `dominantGenre` / `maxGenreCount` scan of `analyzePersonality`,
starting from `('eclectic', 0)`. -/
def scanMax (entries : List (String × ℚ)) (init : String) : String × ℚ :=
  entries.foldl scanStep (init, 0)

/-- `dominantGenre` as returned by `analyzePersonality`: the scan winner,
overridden to `eclectic` when three or more families are present and the
leader holds less than half of `totalPlays`. (With no genre entries the
scan returns the initial `eclectic` and the override test fails, as in the
source.) -/
def dominantGenreOf (artists : List PSample) : String :=
  let entries := genreCountsOf artists
  let s := scanMax entries "eclectic"
  if 3 ≤ entries.length ∧ s.2 / totalPlaysOf artists < 1/2 then "eclectic" else s.1

/-- One step of the dominant-mood scan (initial mood is `null`). -/
def moodScanStep (best : Option String × ℚ) (e : String × ℚ) : Option String × ℚ :=
  if best.2 < e.2 then (some e.1, e.2) else best

/-- `dominantMood` as computed by `analyzePersonality` (before the
`|| 'relaxed'` default applied for headline generation). -/
def dominantMoodOf (artists : List PSample) : Option String :=
  ((moodCountsOf artists).foldl moodScanStep ((none : Option String), (0 : ℚ))).1

/-- The client-side filter `personalityData.filter(d => d.genre || d.style
|| d.mood)` in `fetchAllArtistImages`. -/
def validPersonality (ds : List PSample) : List PSample :=
  ds.filter (fun d => jsTruthy d.genre || jsTruthy d.style || jsTruthy d.mood)

/-- `finalMoodCounts` of `fetchAllArtistImages`: raw (unnormalized) mood
strings weighted by `playcount || 1` over the valid samples. -/
def finalMoodCounts (ds : List PSample) : List (String × ℚ) :=
  (validPersonality ds).foldl (fun acc d =>
    if jsTruthy d.mood then bump (d.mood.getD "") (jsWeight d.playcount) acc else acc) []

/-- `finalMoodTotal` of `fetchAllArtistImages`. -/
def finalMoodTotal (ds : List PSample) : ℚ :=
  (validPersonality ds).foldl (fun acc d =>
    if jsTruthy d.mood then acc + jsWeight d.playcount else acc) 0

/-- `finalMoodWeights` of `fetchAllArtistImages`: each mood's share of the
total, or `relaxed: 1` when no mood weight accumulated. -/
def finalMoodWeights (ds : List PSample) : List (String × ℚ) :=
  if 0 < finalMoodTotal ds then
    (finalMoodCounts ds).map (fun e => (e.1, e.2 / finalMoodTotal ds))
  else [("relaxed", 1)]

/-! ### Helper lemmas for C3 -/

theorem jsWeight_pos {p : ℚ} (h : 0 ≤ p) : 0 < jsWeight p := by
  unfold jsWeight
  split_ifs with h0
  · norm_num
  · exact lt_of_le_of_ne h (Ne.symm h0)

theorem bump_pos {k : String} {w : ℚ} (hw : 0 < w) :
    ∀ {l : List (String × ℚ)}, (∀ e ∈ l, 0 < e.2) → ∀ e ∈ bump k w l, 0 < e.2 := by
  intro l
  induction l with
  | nil =>
    intro _ e he
    simp only [bump, List.mem_singleton] at he
    simpa [he] using hw
  | cons hd t ih =>
    intro hl e he
    obtain ⟨k', v⟩ := hd
    simp only [bump] at he
    split_ifs at he with hk
    · rcases List.mem_cons.mp he with rfl | hmem
      · have hv : 0 < v := hl (k', v) (List.mem_cons_self _ _)
        simpa using add_pos hv hw
      · exact hl e (List.mem_cons_of_mem _ hmem)
    · rcases List.mem_cons.mp he with rfl | hmem
      · exact hl _ (List.mem_cons_self _ _)
      · exact ih (fun x hx => hl x (List.mem_cons_of_mem _ hx)) e hmem

theorem genreCountsOf_pos {artists : List PSample}
    (hw : ∀ a ∈ artists, 0 ≤ a.playcount) :
    ∀ e ∈ genreCountsOf artists, 0 < e.2 := by
  unfold genreCountsOf
  have main : ∀ (l : List PSample) (acc : List (String × ℚ)),
      (∀ a ∈ l, 0 ≤ a.playcount) → (∀ e ∈ acc, 0 < e.2) →
      ∀ e ∈ l.foldl (fun acc a =>
        if jsTruthy (jsOrStr a.genre a.style) then
          match lookupMap GENRE_FAMILY_MAP (jsToLower ((jsOrStr a.genre a.style).getD "")) with
          | some ng => bump ng (jsWeight a.playcount) acc
          | none => acc
        else acc) acc, 0 < e.2 := by
    intro l
    induction l with
    | nil => intro acc _ hacc e he; exact hacc e he
    | cons a t ih =>
      intro acc hl hacc
      simp only [List.foldl_cons]
      apply ih _ (fun x hx => hl x (List.mem_cons_of_mem _ hx))
      have hwa : 0 < jsWeight a.playcount :=
        jsWeight_pos (hl a (List.mem_cons_self _ _))
      split
      · split
        · exact bump_pos hwa hacc
        · exact hacc
      · exact hacc
  exact main artists [] hw (by simp)

theorem foldl_scanStep_spec : ∀ (l : List (String × ℚ)) (acc : String × ℚ),
    (l.foldl scanStep acc = acc ∨ l.foldl scanStep acc ∈ l) ∧
    acc.2 ≤ (l.foldl scanStep acc).2 ∧
    ∀ e ∈ l, e.2 ≤ (l.foldl scanStep acc).2 := by
  intro l
  induction l with
  | nil =>
    intro acc
    exact ⟨Or.inl rfl, le_refl _, by simp⟩
  | cons e t ih =>
    intro acc
    simp only [List.foldl_cons]
    obtain ⟨hmem, hle, hall⟩ := ih (scanStep acc e)
    have hstep_le : acc.2 ≤ (scanStep acc e).2 := by
      unfold scanStep
      split_ifs with h
      · exact le_of_lt h
      · exact le_refl _
    have hstep_e : e.2 ≤ (scanStep acc e).2 := by
      unfold scanStep
      split_ifs with h
      · exact le_refl _
      · exact le_of_not_lt h
    refine ⟨?_, le_trans hstep_le hle, ?_⟩
    · rcases hmem with heq | hmem
      · rw [heq]
        unfold scanStep
        split_ifs
        · exact Or.inr (List.mem_cons_self _ _)
        · exact Or.inl rfl
      · exact Or.inr (List.mem_cons_of_mem _ hmem)
    · intro x hx
      rcases List.mem_cons.mp hx with rfl | hx
      · exact le_trans hstep_e hle
      · exact hall x hx

/-- Scenario input for C3: three families (`rock`, `pop`, `jazz`), leader
weight 0.4 of total 1. -/
def c3three : List PSample :=
  [⟨"r", some "rock", none, none, 2/5⟩,
   ⟨"p", some "pop", none, none, 7/20⟩,
   ⟨"j", some "jazz", none, none, 1/4⟩]

/-- Scenario input for C3: two families, leader weight 0.6 of total 1. -/
def c3two : List PSample :=
  [⟨"r", some "rock", none, none, 3/5⟩,
   ⟨"p", some "pop", none, none, 2/5⟩]

theorem genreCountsOf_c3three_eval :
    genreCountsOf c3three = [("rock", 2/5), ("pop", 7/20), ("jazz", 1/4)] := by
  have h : genreCountsOf c3three =
      [("rock", jsWeight (2/5)), ("pop", jsWeight (7/20)), ("jazz", jsWeight (1/4))] := rfl
  rw [h]
  norm_num [jsWeight]

theorem totalPlaysOf_c3three_eval : totalPlaysOf c3three = 1 := by
  unfold totalPlaysOf c3three
  norm_num [jsWeight]

theorem dominantGenreOf_c3three : dominantGenreOf c3three = "eclectic" := by
  unfold dominantGenreOf
  rw [genreCountsOf_c3three_eval, totalPlaysOf_c3three_eval]
  norm_num [scanMax, scanStep]

theorem genreCountsOf_c3two_eval :
    genreCountsOf c3two = [("rock", 3/5), ("pop", 2/5)] := by
  have h : genreCountsOf c3two =
      [("rock", jsWeight (3/5)), ("pop", jsWeight (2/5))] := rfl
  rw [h]
  norm_num [jsWeight]

theorem totalPlaysOf_c3two_eval : totalPlaysOf c3two = 1 := by
  unfold totalPlaysOf c3two
  norm_num [jsWeight]

theorem dominantGenreOf_c3two : dominantGenreOf c3two = "rock" := by
  unfold dominantGenreOf
  rw [genreCountsOf_c3two_eval, totalPlaysOf_c3two_eval]
  norm_num [scanMax, scanStep]

/-- **C3.** For every list of personality samples with nonnegative play-count
weights that yields at least one genre family: when three or more distinct
families are present and the leader holds under 50% of the total weight the
dominant genre is `eclectic`; otherwise the dominant genre is a family
achieving the highest weighted total (the scan maximum bounds every family's
weight and is attained by the result). In particular the scenario weights
rock 0.4 / pop 0.35 / jazz 0.25 yield `eclectic` and rock 0.6 / pop 0.4
yield `rock`. -/
theorem analyzePersonality_dominantGenre (artists : List PSample)
    (hw : ∀ a ∈ artists, 0 ≤ a.playcount)
    (hne : genreCountsOf artists ≠ []) :
    ((3 ≤ (genreCountsOf artists).length ∧
        (scanMax (genreCountsOf artists) "eclectic").2 / totalPlaysOf artists < 1/2) →
      dominantGenreOf artists = "eclectic") ∧
    (¬(3 ≤ (genreCountsOf artists).length ∧
        (scanMax (genreCountsOf artists) "eclectic").2 / totalPlaysOf artists < 1/2) →
      (dominantGenreOf artists, (scanMax (genreCountsOf artists) "eclectic").2) ∈
        genreCountsOf artists) ∧
    (∀ e ∈ genreCountsOf artists,
      e.2 ≤ (scanMax (genreCountsOf artists) "eclectic").2) ∧
    dominantGenreOf c3three = "eclectic" ∧
    dominantGenreOf c3two = "rock" := by
  obtain ⟨hmem, _, hall⟩ := foldl_scanStep_spec (genreCountsOf artists) ("eclectic", 0)
  have hscan_mem : scanMax (genreCountsOf artists) "eclectic" ∈ genreCountsOf artists := by
    unfold scanMax
    rcases hmem with heq | hmem
    · exfalso
      obtain ⟨e, he⟩ := List.exists_mem_of_ne_nil _ hne
      have hpos := genreCountsOf_pos hw e he
      have hle := hall e he
      rw [heq] at hle
      exact absurd (lt_of_lt_of_le hpos hle) (lt_irrefl 0)
    · exact hmem
  refine ⟨?_, ?_, hall, dominantGenreOf_c3three, dominantGenreOf_c3two⟩
  · intro hcond
    unfold dominantGenreOf
    simp only [if_pos hcond]
  · intro hcond
    unfold dominantGenreOf
    simp only [if_neg hcond]
    exact hscan_mem

/-- Witness for C3 at the concrete three-family scenario input. -/
theorem analyzePersonality_dominantGenre_witness :
    ((∀ a ∈ c3three, 0 ≤ a.playcount) ∧ genreCountsOf c3three ≠ []) ∧
    (((3 ≤ (genreCountsOf c3three).length ∧
        (scanMax (genreCountsOf c3three) "eclectic").2 / totalPlaysOf c3three < 1/2) →
      dominantGenreOf c3three = "eclectic") ∧
    (¬(3 ≤ (genreCountsOf c3three).length ∧
        (scanMax (genreCountsOf c3three) "eclectic").2 / totalPlaysOf c3three < 1/2) →
      (dominantGenreOf c3three, (scanMax (genreCountsOf c3three) "eclectic").2) ∈
        genreCountsOf c3three) ∧
    (∀ e ∈ genreCountsOf c3three,
      e.2 ≤ (scanMax (genreCountsOf c3three) "eclectic").2) ∧
    dominantGenreOf c3three = "eclectic" ∧
    dominantGenreOf c3two = "rock") :=
  ⟨⟨by norm_num [c3three], by rw [genreCountsOf_c3three_eval]; simp⟩,
    analyzePersonality_dominantGenre c3three (by norm_num [c3three])
      (by rw [genreCountsOf_c3three_eval]; simp)⟩

/-- Scenario input for C9: artist A with 100 plays of mood `happy`, artist B
with 50 plays of mood `sad`. -/
def c9artists : List PSample :=
  [⟨"A", none, none, some "happy", 100⟩,
   ⟨"B", none, none, some "sad", 50⟩]

theorem finalMoodTotal_c9_eval : finalMoodTotal c9artists = 150 := by
  have h1 : jsTruthy (some "happy") = true := rfl
  have h2 : jsTruthy (some "sad") = true := rfl
  have hv : validPersonality c9artists = c9artists := rfl
  unfold finalMoodTotal
  rw [hv]
  unfold c9artists
  simp only [List.foldl_cons, List.foldl_nil, h1, h2, if_true]
  norm_num [jsWeight]

theorem finalMoodWeights_c9_eval :
    finalMoodWeights c9artists = [("happy", 100/150), ("sad", 50/150)] := by
  have hc : finalMoodCounts c9artists = [("happy", jsWeight 100), ("sad", jsWeight 50)] := rfl
  unfold finalMoodWeights
  rw [finalMoodTotal_c9_eval, hc]
  norm_num [jsWeight]

theorem dominantMoodOf_c9_eval : dominantMoodOf c9artists = some "happy" := by
  have hm : moodCountsOf c9artists = [("happy", jsWeight 100), ("sad", jsWeight 50)] := rfl
  unfold dominantMoodOf
  rw [hm]
  simp only [List.foldl_cons, List.foldl_nil]
  norm_num [moodScanStep, jsWeight]

/-- **C9.** For the artist list A(100 plays, happy), B(50 plays, sad), the
play-count-weighted mood weights are happy = 100/150 = 2/3 and
sad = 50/150 = 1/3, and the dominant mood is `happy`. -/
theorem finalMoodWeights_scenario :
    finalMoodWeights c9artists = [("happy", 100/150), ("sad", 50/150)] ∧
    (100 : ℚ)/150 = 2/3 ∧ (50 : ℚ)/150 = 1/3 ∧
    dominantMoodOf c9artists = some "happy" :=
  ⟨finalMoodWeights_c9_eval, by norm_num, by norm_num, dominantMoodOf_c9_eval⟩

/-! ### C7: memoization in `fetchImageForSource` -/

/-- The MusicBrainz resolution result consumed by `fetchImageForSource`. -/
structure MbData where
  mbid : Option String
  discogsId : Option String
deriving DecidableEq, Repr

/-- What each provider's fetch path would return for a given identifier:
the network as a pure oracle (a fixed environment for one comparison of two
consecutive calls). -/
structure NetOracle where
  discogs : String → Option String
  audioDb : String → Option String
  itunes : String → Option String

/-- The in-memory `imageCache` object: keys `artistName:SOURCE`, values
`image URL | null`. An absent key (`undefined` in JS) is `none` at the outer
option; a cached `null` is `some none`. -/
abbrev ImageCache := List (String × Option String)

/-- JS `imageCache[key]`, distinguishing absent (`none`) from cached null
(`some none`). -/
def cacheLookup (cache : ImageCache) (k : String) : Option (Option String) :=
  (cache.find? (fun e => e.fst == k)).map (fun e => e.snd)

/-- JS `imageCache[key] = v`: update in place or append. -/
def cacheSet (k : String) (v : Option String) : ImageCache → ImageCache
  | [] => [(k, v)]
  | (k', v') :: t => if k' = k then (k', v) :: t else (k', v') :: cacheSet k v t

/-- `const { mbid, discogsId } = mbData || {}`. -/
def mbFields : Option MbData → Option String × Option String
  | none => (none, none)
  | some m => (m.mbid, m.discogsId)

/-- Result of one `fetchImageForSource` call: the returned `imageUrl`, the
cache afterwards, and how many provider fetch paths were invoked (0 on a
cache hit or when the needed identifier is missing, 1 otherwise). -/
structure FetchOutcome where
  result : Option String
  cache : ImageCache
  networkCalls : Nat
deriving Repr

/-- The `switch (source)` body of `fetchImageForSource`: dispatch on the
source (`DISCOGS` needs a Discogs id, `THE_AUDIO_DB` an MBID, `ITUNES` only
the name; an unknown source and a missing identifier leave the result null
without a provider call), paired with the number of provider invocations. -/
def fetchDispatch (net : NetOracle) (artistName source : String)
    (mbData : Option MbData) : Option String × Nat :=
  if source = "DISCOGS" then
    if jsTruthy (mbFields mbData).2 then (net.discogs ((mbFields mbData).2.getD ""), 1)
    else (none, 0)
  else if source = "THE_AUDIO_DB" then
    if jsTruthy (mbFields mbData).1 then (net.audioDb ((mbFields mbData).1.getD ""), 1)
    else (none, 0)
  else if source = "ITUNES" then (net.itunes artistName, 1)
  else (none, 0)

/-- `fetchImageForSource` from `app.js`: return the cached value when the
key is present (including cached null); otherwise dispatch on the source,
then memoize the result — null included — before returning. -/
def fetchImageForSource (net : NetOracle) (cache : ImageCache)
    (artistName source : String) (mbData : Option MbData) : FetchOutcome :=
  match cacheLookup cache (artistName ++ ":" ++ source) with
  | some v => ⟨v, cache, 0⟩
  | none =>
      ⟨(fetchDispatch net artistName source mbData).1,
        cacheSet (artistName ++ ":" ++ source)
          (fetchDispatch net artistName source mbData).1 cache,
        (fetchDispatch net artistName source mbData).2⟩

theorem cacheLookup_set (k : String) (v : Option String) :
    ∀ c : ImageCache, cacheLookup (cacheSet k v c) k = some v := by
  intro c
  induction c with
  | nil => simp [cacheSet, cacheLookup]
  | cons e t ih =>
    obtain ⟨k', v'⟩ := e
    by_cases hk : k' = k
    · simp [cacheSet, cacheLookup, hk]
    · simp only [cacheSet, if_neg hk]
      unfold cacheLookup
      rw [List.find?_cons_of_neg]
      · exact ih
      · simp [hk]

theorem fetchImageForSource_cacheHit (net : NetOracle) {cache : ImageCache}
    {artistName source : String} (mbData : Option MbData) {v : Option String}
    (h : cacheLookup cache (artistName ++ ":" ++ source) = some v) :
    fetchImageForSource net cache artistName source mbData = ⟨v, cache, 0⟩ := by
  simp [fetchImageForSource, h]

/-- **C7.** For every network behavior, cache state, artist, provider and
metadata: calling `fetchImageForSource` a second time returns the same
result as the first call with zero provider invocations and an unchanged
cache — including when the first result was null — because the first call
memoizes its result (null included) under the `artist:SOURCE` key before
returning, and a cached null (`some none`) is distinct from an absent entry
(`none`). -/
theorem fetchImageForSource_idempotent (net : NetOracle) (cache : ImageCache)
    (artistName source : String) (mbData : Option MbData) :
    (fetchImageForSource net
        (fetchImageForSource net cache artistName source mbData).cache
        artistName source mbData).result =
      (fetchImageForSource net cache artistName source mbData).result ∧
    (fetchImageForSource net
        (fetchImageForSource net cache artistName source mbData).cache
        artistName source mbData).cache =
      (fetchImageForSource net cache artistName source mbData).cache ∧
    (fetchImageForSource net
        (fetchImageForSource net cache artistName source mbData).cache
        artistName source mbData).networkCalls = 0 ∧
    cacheLookup (fetchImageForSource net cache artistName source mbData).cache
        (artistName ++ ":" ++ source) =
      some (fetchImageForSource net cache artistName source mbData).result := by
  cases h : cacheLookup cache (artistName ++ ":" ++ source) with
  | some v =>
    have h1 := fetchImageForSource_cacheHit net mbData h
    simp only [h1]
    exact ⟨trivial, trivial, trivial, h⟩
  | none =>
    have hfix : fetchImageForSource net cache artistName source mbData =
        ⟨(fetchDispatch net artistName source mbData).1,
          cacheSet (artistName ++ ":" ++ source)
            (fetchDispatch net artistName source mbData).1 cache,
          (fetchDispatch net artistName source mbData).2⟩ := by
      simp [fetchImageForSource, h]
    have hmem : cacheLookup (fetchImageForSource net cache artistName source mbData).cache
        (artistName ++ ":" ++ source) =
        some (fetchImageForSource net cache artistName source mbData).result := by
      rw [hfix]
      exact cacheLookup_set _ _ _
    rw [fetchImageForSource_cacheHit net mbData hmem]
    exact ⟨rfl, rfl, rfl, hmem⟩

/-! ### C5 / C6: tile reveal and runtime source switching -/

/-- `ORIGINAL_SOURCE_ORDER` from `app.js`; tiles are rendered with exactly
one source layer per entry. -/
def ORIGINAL_SOURCE_ORDER : List String := ["ITUNES", "DISCOGS", "THE_AUDIO_DB"]

/-- Runtime view state of one tile: which source layers hold an image
(`data-hasImage` flags), which layer is `active`, and the display classes
(`loading-image`, `loading-active`, `image-loaded`, `no-image`,
`light-image`). -/
structure Tile where
  hasImage : List String
  active : Option String
  loadingImage : Bool
  loadingActive : Bool
  imageLoaded : Bool
  noImage : Bool
  lightImage : Bool
deriving DecidableEq, Repr

/-- The fallback order built by `getBestSourceForTile`: the primary first,
then the remaining sources in original order; only the primary when
fallback is disallowed. -/
def fallbackOrderFor (primarySource : String) (allowFallback : Bool) : List String :=
  if allowFallback then
    primarySource :: ORIGINAL_SOURCE_ORDER.filter (fun s => s != primarySource)
  else [primarySource]

/-- `getBestSourceForTile` from `app.js`: the first source in the fallback
order whose layer exists (tiles have layers exactly for
`ORIGINAL_SOURCE_ORDER`) and holds an image. -/
def getBestSourceForTile (tile : Tile) (primarySource : String)
    (allowFallback : Bool) : Option String :=
  (fallbackOrderFor primarySource allowFallback).find?
    (fun s => ORIGINAL_SOURCE_ORDER.contains s && tile.hasImage.contains s)

/-- `primaryLayer && primaryLayer.dataset.hasImage === 'true'` in
`revealTile`. -/
def hasPrimaryImage (tile : Tile) (primarySource : String) : Bool :=
  ORIGINAL_SOURCE_ORDER.contains primarySource && tile.hasImage.contains primarySource

/-- The per-tile body of `handleImageSourceChange` (after it stopped
rotation and set the new config): show the best available layer, or revert
to the loading display when the newly selected primary has not fully
loaded, or mark no-image when it has and nothing is available.
`lum` is the tile's luminance-cache row (`applyTitleTheme`); absent entries
are dark (`false`). -/
def applySourceChange (lum : String → Bool) (sourceFullyLoaded : Bool)
    (primarySource : String) (tile : Tile) : Tile :=
  match getBestSourceForTile tile primarySource sourceFullyLoaded with
  | some b =>
      { tile with
          active := some b
          noImage := false
          loadingImage := false
          loadingActive := false
          imageLoaded := true
          lightImage := lum b }
  | none =>
      if !sourceFullyLoaded then
        { tile with
            active := none
            imageLoaded := false
            noImage := false
            loadingImage := true }
      else
        { tile with
            active := none
            imageLoaded := false
            loadingImage := false
            loadingActive := false
            lightImage := false
            noImage := true }

/-- `revealTile` from `app.js`: keep the loading display while the primary
source is neither fully loaded nor present on this tile; otherwise clear the
loading classes and show the best source (fallback allowed only once the
primary is fully loaded) or mark no-image. -/
def revealTile (lum : String → Bool) (primarySource : String)
    (primarySourceLoaded : Bool) (tile : Tile) : Tile :=
  if !primarySourceLoaded && !(hasPrimaryImage tile primarySource) then
    tile
  else
    match getBestSourceForTile
        { tile with loadingImage := false, loadingActive := false }
        primarySource primarySourceLoaded with
    | some b =>
        { tile with
            loadingImage := false
            loadingActive := false
            active := some b
            imageLoaded := true
            lightImage := lum b }
    | none =>
        { tile with
            loadingImage := false
            loadingActive := false
            noImage := true
            lightImage := false }

theorem getBestSourceForTile_hasImage {tile : Tile} {primarySource : String}
    (allowFallback : Bool) (hmem : primarySource ∈ ORIGINAL_SOURCE_ORDER)
    (him : primarySource ∈ tile.hasImage) :
    getBestSourceForTile tile primarySource allowFallback = some primarySource := by
  have h1 : ORIGINAL_SOURCE_ORDER.contains primarySource = true :=
    List.elem_eq_true_of_mem hmem
  have h2 : tile.hasImage.contains primarySource = true :=
    List.elem_eq_true_of_mem him
  have hpred : (ORIGINAL_SOURCE_ORDER.contains primarySource &&
      tile.hasImage.contains primarySource) = true := by
    rw [h1, h2]
    rfl
  unfold getBestSourceForTile
  cases allowFallback with
  | false => exact List.find?_cons_of_pos _ hpred
  | true => exact List.find?_cons_of_pos _ hpred

/-- **C5.** For every runtime provider-priority change selecting source `S`,
every tile whose `S` source layer already holds an image ends revealed
(`image-loaded`, no loading classes, not `no-image`) displaying `S`'s own
layer; it is never reverted to the loading display state. -/
theorem handleImageSourceChange_keeps_loaded (lum : String → Bool)
    (sourceFullyLoaded : Bool) (S : String) (tile : Tile)
    (hS : S ∈ ORIGINAL_SOURCE_ORDER) (him : S ∈ tile.hasImage) :
    (applySourceChange lum sourceFullyLoaded S tile).active = some S ∧
    (applySourceChange lum sourceFullyLoaded S tile).imageLoaded = true ∧
    (applySourceChange lum sourceFullyLoaded S tile).loadingImage = false ∧
    (applySourceChange lum sourceFullyLoaded S tile).loadingActive = false ∧
    (applySourceChange lum sourceFullyLoaded S tile).noImage = false := by
  have hbest := getBestSourceForTile_hasImage sourceFullyLoaded hS him
  unfold applySourceChange
  rw [hbest]
  exact ⟨rfl, rfl, rfl, rfl, rfl⟩

/-- Witness for C5 at a concrete input: a loading tile that already holds
the Discogs image, user selects Discogs while it is not yet fully loaded. -/
theorem handleImageSourceChange_keeps_loaded_witness :
    ("DISCOGS" ∈ ORIGINAL_SOURCE_ORDER ∧
      "DISCOGS" ∈ (Tile.mk ["DISCOGS"] none true false false false false).hasImage) ∧
    ((applySourceChange (fun _ => false) false "DISCOGS"
        (Tile.mk ["DISCOGS"] none true false false false false)).active = some "DISCOGS" ∧
    (applySourceChange (fun _ => false) false "DISCOGS"
        (Tile.mk ["DISCOGS"] none true false false false false)).imageLoaded = true ∧
    (applySourceChange (fun _ => false) false "DISCOGS"
        (Tile.mk ["DISCOGS"] none true false false false false)).loadingImage = false ∧
    (applySourceChange (fun _ => false) false "DISCOGS"
        (Tile.mk ["DISCOGS"] none true false false false false)).loadingActive = false ∧
    (applySourceChange (fun _ => false) false "DISCOGS"
        (Tile.mk ["DISCOGS"] none true false false false false)).noImage = false) :=
  ⟨⟨by decide, by decide⟩,
    handleImageSourceChange_keeps_loaded (fun _ => false) false "DISCOGS"
      (Tile.mk ["DISCOGS"] none true false false false false) (by decide) (by decide)⟩

theorem revealTile_reveals (lum : String → Bool) (primarySource : String)
    (primarySourceLoaded : Bool) (tile : Tile)
    (h : (!primarySourceLoaded && !(hasPrimaryImage tile primarySource)) = false) :
    revealTile lum primarySource primarySourceLoaded tile =
      match getBestSourceForTile tile primarySource primarySourceLoaded with
      | some b =>
          { tile with
              loadingImage := false
              loadingActive := false
              active := some b
              imageLoaded := true
              lightImage := lum b }
      | none =>
          { tile with
              loadingImage := false
              loadingActive := false
              noImage := true
              lightImage := false } := by
  unfold revealTile
  rw [h]
  rfl

theorem revealTile_not_loading (lum : String → Bool) (primarySource : String)
    (primarySourceLoaded : Bool) (tile : Tile)
    (h : (!primarySourceLoaded && !(hasPrimaryImage tile primarySource)) = false) :
    (revealTile lum primarySource primarySourceLoaded tile).loadingImage = false ∧
    (revealTile lum primarySource primarySourceLoaded tile).loadingActive = false := by
  rw [revealTile_reveals lum primarySource primarySourceLoaded tile h]
  cases getBestSourceForTile tile primarySource primarySourceLoaded with
  | none => exact ⟨rfl, rfl⟩
  | some b => exact ⟨rfl, rfl⟩

/-- **C6.** For a tile in the loading display state, after `revealTile`
runs: the tile remains in the loading display state iff the primary provider
is neither fully loaded for the batch nor present on this tile; when the
primary's layer holds an image the tile is revealed showing it; when the
primary is fully loaded the tile shows the best source per the fixed
fallback order — fallback to non-primary sources permitted only then — or
is marked no-image when no source has an image. -/
theorem revealTile_spec (lum : String → Bool) (primarySource : String)
    (primarySourceLoaded : Bool) (tile : Tile)
    (hload : tile.loadingImage = true ∨ tile.loadingActive = true)
    (hni : tile.noImage = false) :
    (((revealTile lum primarySource primarySourceLoaded tile).loadingImage = true ∨
      (revealTile lum primarySource primarySourceLoaded tile).loadingActive = true) ↔
      (primarySourceLoaded = false ∧ hasPrimaryImage tile primarySource = false)) ∧
    (primarySource ∈ ORIGINAL_SOURCE_ORDER → primarySource ∈ tile.hasImage →
      (revealTile lum primarySource primarySourceLoaded tile).active = some primarySource ∧
      (revealTile lum primarySource primarySourceLoaded tile).imageLoaded = true) ∧
    (primarySourceLoaded = true →
      ∀ b, getBestSourceForTile tile primarySource true = some b →
      (revealTile lum primarySource primarySourceLoaded tile).active = some b ∧
      (revealTile lum primarySource primarySourceLoaded tile).imageLoaded = true ∧
      (revealTile lum primarySource primarySourceLoaded tile).noImage = false) ∧
    (primarySourceLoaded = true →
      getBestSourceForTile tile primarySource true = none →
      (revealTile lum primarySource primarySourceLoaded tile).noImage = true ∧
      (revealTile lum primarySource primarySourceLoaded tile).imageLoaded = tile.imageLoaded ∧
      (revealTile lum primarySource primarySourceLoaded tile).loadingImage = false ∧
      (revealTile lum primarySource primarySourceLoaded tile).loadingActive = false) := by
  cases hP : primarySourceLoaded with
  | false =>
    cases hC : hasPrimaryImage tile primarySource with
    | false =>
      have hrev : revealTile lum primarySource false tile = tile := by
        unfold revealTile
        rw [hC]
        rfl
      refine ⟨?_, ?_, ?_, ?_⟩
      · rw [hrev]
        exact ⟨fun _ => ⟨rfl, rfl⟩, fun _ => hload⟩
      · intro hmem him
        exfalso
        have h1 : ORIGINAL_SOURCE_ORDER.contains primarySource = true :=
          List.elem_eq_true_of_mem hmem
        have h2 : tile.hasImage.contains primarySource = true :=
          List.elem_eq_true_of_mem him
        have ht : hasPrimaryImage tile primarySource = true := by
          unfold hasPrimaryImage
          rw [h1, h2]
          rfl
        rw [hC] at ht
        exact absurd ht (by simp)
      · intro hl
        exact absurd hl (by simp)
      · intro hl
        exact absurd hl (by simp)
    | true =>
      have hguard : (!(false : Bool) && !(hasPrimaryImage tile primarySource)) = false := by
        rw [hC]
        rfl
      have hrev := revealTile_reveals lum primarySource false tile hguard
      have hnl := revealTile_not_loading lum primarySource false tile hguard
      refine ⟨?_, ?_, ?_, ?_⟩
      · constructor
        · intro hl
          rcases hl with hl | hl
          · rw [hnl.1] at hl
            exact absurd hl (by simp)
          · rw [hnl.2] at hl
            exact absurd hl (by simp)
        · intro h
          exact absurd h.2 (by simp)
      · intro hmem him
        have hbest := getBestSourceForTile_hasImage false hmem him
        rw [hrev, hbest]
        exact ⟨rfl, rfl⟩
      · intro hl
        exact absurd hl (by simp)
      · intro hl
        exact absurd hl (by simp)
  | true =>
    have hguard : (!(true : Bool) && !(hasPrimaryImage tile primarySource)) = false := rfl
    have hrev := revealTile_reveals lum primarySource true tile hguard
    have hnl := revealTile_not_loading lum primarySource true tile hguard
    refine ⟨?_, ?_, ?_, ?_⟩
    · constructor
      · intro hl
        rcases hl with hl | hl
        · rw [hnl.1] at hl
          exact absurd hl (by simp)
        · rw [hnl.2] at hl
          exact absurd hl (by simp)
      · intro h
        exact absurd h.1 (by simp)
    · intro hmem him
      have hbest := getBestSourceForTile_hasImage true hmem him
      rw [hrev, hbest]
      exact ⟨rfl, rfl⟩
    · intro _ b hb
      rw [hrev, hb]
      exact ⟨rfl, rfl, hni⟩
    · intro _ hb
      rw [hrev, hb]
      exact ⟨rfl, rfl, rfl, rfl⟩

/-- Witness for C6 at a concrete input: a loading-active tile holding only
the Discogs image while iTunes (primary) is fully loaded reveals the
Discogs fallback. -/
theorem revealTile_spec_witness :
    (((Tile.mk ["DISCOGS"] none false true false false false).loadingImage = true ∨
      (Tile.mk ["DISCOGS"] none false true false false false).loadingActive = true) ∧
      (Tile.mk ["DISCOGS"] none false true false false false).noImage = false) ∧
    ((((revealTile (fun _ => false) "ITUNES" true
        (Tile.mk ["DISCOGS"] none false true false false false)).loadingImage = true ∨
      (revealTile (fun _ => false) "ITUNES" true
        (Tile.mk ["DISCOGS"] none false true false false false)).loadingActive = true) ↔
      (true = false ∧
        hasPrimaryImage (Tile.mk ["DISCOGS"] none false true false false false)
          "ITUNES" = false)) ∧
    ("ITUNES" ∈ ORIGINAL_SOURCE_ORDER →
      "ITUNES" ∈ (Tile.mk ["DISCOGS"] none false true false false false).hasImage →
      (revealTile (fun _ => false) "ITUNES" true
        (Tile.mk ["DISCOGS"] none false true false false false)).active = some "ITUNES" ∧
      (revealTile (fun _ => false) "ITUNES" true
        (Tile.mk ["DISCOGS"] none false true false false false)).imageLoaded = true) ∧
    (true = true →
      ∀ b, getBestSourceForTile (Tile.mk ["DISCOGS"] none false true false false false)
          "ITUNES" true = some b →
      (revealTile (fun _ => false) "ITUNES" true
        (Tile.mk ["DISCOGS"] none false true false false false)).active = some b ∧
      (revealTile (fun _ => false) "ITUNES" true
        (Tile.mk ["DISCOGS"] none false true false false false)).imageLoaded = true ∧
      (revealTile (fun _ => false) "ITUNES" true
        (Tile.mk ["DISCOGS"] none false true false false false)).noImage = false) ∧
    (true = true →
      getBestSourceForTile (Tile.mk ["DISCOGS"] none false true false false false)
          "ITUNES" true = none →
      (revealTile (fun _ => false) "ITUNES" true
        (Tile.mk ["DISCOGS"] none false true false false false)).noImage = true ∧
      (revealTile (fun _ => false) "ITUNES" true
        (Tile.mk ["DISCOGS"] none false true false false false)).imageLoaded =
        (Tile.mk ["DISCOGS"] none false true false false false).imageLoaded ∧
      (revealTile (fun _ => false) "ITUNES" true
        (Tile.mk ["DISCOGS"] none false true false false false)).loadingImage = false ∧
      (revealTile (fun _ => false) "ITUNES" true
        (Tile.mk ["DISCOGS"] none false true false false false)).loadingActive = false)) :=
  ⟨⟨Or.inr rfl, rfl⟩,
    revealTile_spec (fun _ => false) "ITUNES" true
      (Tile.mk ["DISCOGS"] none false true false false false) (Or.inr rfl) rfl⟩

/-! ### C4 / C10: auto-rotation controller -/

/-- The module-level rotation state of `app.js`:
`CONFIG.imageSources`, `autoRotationInterval` (as a Boolean: is the interval
scheduled), `autoRotationStartTimeout` (is the delayed start pending),
`autoRotationSourceIndex`, `autoRotationDirection`, `autoRotationDisabled`
and `availableSources`. -/
structure RotState where
  cfg : List String
  interval : Bool
  startTimeout : Bool
  index : ℤ
  direction : ℤ
  disabled : Bool
  available : List String
deriving DecidableEq, Repr

/-- The state at page load. -/
def initialRotState : RotState :=
  ⟨ORIGINAL_SOURCE_ORDER, false, false, 0, 1, false, []⟩

/-- JS `Array.prototype.indexOf` (−1 when absent). -/
def jsIndexOf (l : List String) (s : String) : ℤ :=
  match l.findIdx? (fun x => x == s) with
  | some i => (i : ℤ)
  | none => -1

/-- The insertion-position loop of `addAvailableSource`: the first position
whose existing source sits later in `CONFIG.imageSources` than the new one,
defaulting to the end. -/
def findInsertIdx (cfg : List String) (sIdx : ℤ) : List String → Nat
  | [] => 0
  | a :: rest =>
      if sIdx < jsIndexOf cfg a then 0 else findInsertIdx cfg sIdx rest + 1

/-- `addAvailableSource` from `app.js`, restricted to the rotation state it
touches (per-tile DOM updates are handled by the tile model): insert the
source in `CONFIG.imageSources` order if new, then schedule the delayed
rotation start when two or more sources are available, nothing is scheduled
or running, and the user has not manually selected a source. -/
def addAvailableSource (st : RotState) (source : String) : RotState :=
  if st.available.contains source then st
  else if 2 ≤ (st.available.insertIdx
        (findInsertIdx st.cfg (jsIndexOf st.cfg source) st.available) source).length ∧
      st.interval = false ∧ st.startTimeout = false ∧ st.disabled = false then
    { st with
        available := st.available.insertIdx
          (findInsertIdx st.cfg (jsIndexOf st.cfg source) st.available) source
        startTimeout := true }
  else
    { st with
        available := st.available.insertIdx
          (findInsertIdx st.cfg (jsIndexOf st.cfg source) st.available) source }

/-- `stopAutoRotation` from `app.js`: cancel the pending start timeout and
the running interval. -/
def stopAutoRotation (st : RotState) : RotState :=
  { st with startTimeout := false, interval := false }

/-- `startAutoRotation` from `app.js`: refuse when already running, fewer
than two available sources, or reduced motion is set; otherwise reset index
and direction and schedule the interval. -/
def startAutoRotation (reduced : Bool) (st : RotState) : RotState :=
  if st.interval = true ∨ st.available.length < 2 then st
  else if reduced then st
  else { st with index := 0, direction := 1, interval := true }

/-- The pending start timeout fires: clear it and run `startAutoRotation`
(a timeout can only fire while scheduled). -/
def timeoutFires (reduced : Bool) (st : RotState) : RotState :=
  if st.startTimeout then startAutoRotation reduced { st with startTimeout := false }
  else st

/-- One firing of the rotation interval callback (only possible while the
interval is scheduled): step the index by the direction and bounce at the
ends. -/
def rotationTick (st : RotState) : RotState :=
  if st.interval = false then st
  else
    { st with
        index := st.index + st.direction
        direction :=
          if (st.available.length : ℤ) - 1 ≤ st.index + st.direction then -1
          else if st.index + st.direction ≤ 0 then 1
          else st.direction }

/-- `handleImageSourceChange` from `app.js`, restricted to rotation state:
stop rotation (pending start included), permanently disable auto-restart,
and reorder `CONFIG.imageSources` behind the selected radio (when one is
checked). -/
def handleImageSourceChange (st : RotState) (selected : Option String) : RotState :=
  let st1 := { stopAutoRotation st with disabled := true }
  match selected with
  | none => st1
  | some s => { st1 with cfg := s :: ORIGINAL_SOURCE_ORDER.filter (fun x => x != s) }

/-- The rotation-state reset in `loadUser`: stop rotation, clear available
sources, reset index/direction, re-enable auto-rotation, restore the
default source order. -/
def loadUserReset (st : RotState) : RotState :=
  { stopAutoRotation st with
      available := []
      index := 0
      direction := 1
      disabled := false
      cfg := ORIGINAL_SOURCE_ORDER }

/-- The events that touch rotation state during a session. -/
inductive RotEvent where
  | add (source : String)
  | timeoutFire
  | tick
  | select (selected : Option String)
  | load
deriving DecidableEq, Repr

/-- One event step; `reduced` is the reduced-motion media-query state at
that moment. -/
def rotStep (reduced : Bool) (st : RotState) : RotEvent → RotState
  | .add s => addAvailableSource st s
  | .timeoutFire => timeoutFires reduced st
  | .tick => rotationTick st
  | .select s => handleImageSourceChange st s
  | .load => loadUserReset st

/-- States reachable from page load by any event interleaving. -/
inductive RotReachable : RotState → Prop
  | init : RotReachable initialRotState
  | step (reduced : Bool) (e : RotEvent) {st : RotState} :
      RotReachable st → RotReachable (rotStep reduced st e)

/-- Running a list of (reduced-motion flag, event) pairs. -/
def runEvents (evs : List (Bool × RotEvent)) (st : RotState) : RotState :=
  evs.foldl (fun s p => rotStep p.1 s p.2) st

/-- The inductive invariant of the rotation controller. -/
def RotInv (st : RotState) : Prop :=
  (st.interval = true →
    2 ≤ st.available.length ∧
    0 ≤ st.index ∧ st.index ≤ (st.available.length : ℤ) - 1 ∧
    ((st.direction = 1 ∧ st.index ≤ (st.available.length : ℤ) - 2) ∨
     (st.direction = -1 ∧ 1 ≤ st.index))) ∧
  (st.disabled = true → st.interval = false ∧ st.startTimeout = false)

theorem findInsertIdx_le (cfg : List String) (sIdx : ℤ) :
    ∀ l : List String, findInsertIdx cfg sIdx l ≤ l.length := by
  intro l
  induction l with
  | nil => exact Nat.le_refl 0
  | cons a rest ih =>
    unfold findInsertIdx
    split
    · exact Nat.zero_le _
    · simpa using Nat.succ_le_succ ih

theorem insertIdx_length_avail (st : RotState) (source : String) :
    (st.available.insertIdx
      (findInsertIdx st.cfg (jsIndexOf st.cfg source) st.available) source).length =
    st.available.length + 1 :=
  List.length_insertIdx _ _ (findInsertIdx_le _ _ _)

theorem addAvailableSource_fields (st : RotState) (source : String) :
    (addAvailableSource st source).interval = st.interval ∧
    (addAvailableSource st source).index = st.index ∧
    (addAvailableSource st source).direction = st.direction ∧
    (addAvailableSource st source).disabled = st.disabled ∧
    st.available.length ≤ (addAvailableSource st source).available.length ∧
    ((addAvailableSource st source).startTimeout = true →
      st.startTimeout = true ∨ st.disabled = false) := by
  have hlen := insertIdx_length_avail st source
  unfold addAvailableSource
  split
  · exact ⟨rfl, rfl, rfl, rfl, Nat.le_refl _, fun h => Or.inl h⟩
  · split
    · rename_i hcond
      refine ⟨rfl, rfl, rfl, rfl, ?_, fun _ => Or.inr hcond.2.2.2⟩
      simp only
      rw [hlen]
      omega
    · refine ⟨rfl, rfl, rfl, rfl, ?_, fun h => Or.inl h⟩
      simp only
      rw [hlen]
      omega

theorem rotInv_step (reduced : Bool) (e : RotEvent) (st : RotState)
    (h : RotInv st) : RotInv (rotStep reduced st e) := by
  obtain ⟨hint, hdis⟩ := h
  cases e with
  | add s =>
    show RotInv (addAvailableSource st s)
    obtain ⟨hi, hx, hd, hdb, hlen, hst⟩ := addAvailableSource_fields st s
    constructor
    · intro hrun
      rw [hi] at hrun
      obtain ⟨h2, h0, h1, hdir⟩ := hint hrun
      refine ⟨by omega, by rw [hx]; exact h0, ?_, ?_⟩
      · rw [hx]
        omega
      · rw [hx, hd]
        rcases hdir with ⟨ha, hb⟩ | ⟨ha, hb⟩
        · exact Or.inl ⟨ha, by omega⟩
        · exact Or.inr ⟨ha, hb⟩
    · intro hd2
      rw [hdb] at hd2
      obtain ⟨h1, h2⟩ := hdis hd2
      constructor
      · rw [hi]
        exact h1
      · rcases Bool.eq_false_or_eq_true (addAvailableSource st s).startTimeout with h3 | h3
        · rcases hst h3 with h4 | h4
          · exact absurd h4 (by rw [h2]; simp)
          · exact absurd h4 (by rw [hd2]; simp)
        · exact h3
  | timeoutFire =>
    show RotInv (timeoutFires reduced st)
    unfold timeoutFires
    split
    · rename_i hto
      unfold startAutoRotation
      split
      · exact ⟨fun hrun => hint hrun, fun hd2 => ⟨(hdis hd2).1, rfl⟩⟩
      · split
        · exact ⟨fun hrun => hint hrun, fun hd2 => ⟨(hdis hd2).1, rfl⟩⟩
        · rename_i hcase hred
          constructor
          · intro _
            have h2 : 2 ≤ st.available.length := by
              rcases Nat.lt_or_ge st.available.length 2 with hlt | hge
              · exact absurd (Or.inr hlt) hcase
              · exact hge
            dsimp only
            refine ⟨h2, by omega, by omega, Or.inl ⟨rfl, by omega⟩⟩
          · intro hd2
            obtain ⟨_, hstf⟩ := hdis hd2
            rw [hto] at hstf
            exact absurd hstf (by simp)
    · exact ⟨hint, hdis⟩
  | tick =>
    show RotInv (rotationTick st)
    unfold rotationTick
    split
    · exact ⟨hint, hdis⟩
    · rename_i hrun0
      have hrun : st.interval = true := by simpa using hrun0
      obtain ⟨h2, h0, h1, hdir⟩ := hint hrun
      constructor
      · intro _
        dsimp only
        refine ⟨h2, ?_, ?_, ?_⟩
        · rcases hdir with ⟨ha, hb⟩ | ⟨ha, hb⟩ <;> omega
        · rcases hdir with ⟨ha, hb⟩ | ⟨ha, hb⟩ <;> omega
        · split
          · rename_i hc1
            refine Or.inr ⟨rfl, ?_⟩
            rcases hdir with ⟨ha, hb⟩ | ⟨ha, hb⟩ <;> omega
          · split
            · rename_i hc1 hc2
              refine Or.inl ⟨rfl, ?_⟩
              omega
            · rename_i hc1 hc2
              rcases hdir with ⟨ha, hb⟩ | ⟨ha, hb⟩
              · exact Or.inl ⟨ha, by omega⟩
              · exact Or.inr ⟨ha, by omega⟩
      · intro hd2
        obtain ⟨h1', _⟩ := hdis hd2
        rw [hrun] at h1'
        exact absurd h1' (by simp)
  | select sel =>
    show RotInv (handleImageSourceChange st sel)
    unfold handleImageSourceChange stopAutoRotation
    cases sel with
    | none => exact ⟨fun h => absurd h (by simp), fun _ => ⟨rfl, rfl⟩⟩
    | some s => exact ⟨fun h => absurd h (by simp), fun _ => ⟨rfl, rfl⟩⟩
  | load =>
    show RotInv (loadUserReset st)
    unfold loadUserReset stopAutoRotation
    exact ⟨fun h => absurd h (by simp), fun _ => ⟨rfl, rfl⟩⟩

theorem rotInv_reachable {st : RotState} (h : RotReachable st) : RotInv st := by
  induction h with
  | init =>
    exact ⟨fun h => absurd h (by simp [initialRotState]),
      fun h => absurd h (by simp [initialRotState])⟩
  | step reduced e hst ih => exact rotInv_step reduced e _ ih

/-- Once the user manually selected a source, the controller stays stopped
for every later event that is not a new-user load. -/
theorem stopped_forever (evs : List (Bool × RotEvent)) :
    ∀ st : RotState, st.disabled = true → st.interval = false →
    st.startTimeout = false →
    (∀ p ∈ evs, p.2 ≠ RotEvent.load) →
    (runEvents evs st).disabled = true ∧ (runEvents evs st).interval = false ∧
    (runEvents evs st).startTimeout = false := by
  induction evs with
  | nil => exact fun st h1 h2 h3 _ => ⟨h1, h2, h3⟩
  | cons p rest ih =>
    intro st h1 h2 h3 hev
    have hstep : (rotStep p.1 st p.2).disabled = true ∧
        (rotStep p.1 st p.2).interval = false ∧
        (rotStep p.1 st p.2).startTimeout = false := by
      cases hp : p.2 with
      | add s =>
        show (addAvailableSource st s).disabled = true ∧
          (addAvailableSource st s).interval = false ∧
          (addAvailableSource st s).startTimeout = false
        obtain ⟨hi, _, _, hdb, _, hst⟩ := addAvailableSource_fields st s
        refine ⟨by rw [hdb]; exact h1, by rw [hi]; exact h2, ?_⟩
        rcases Bool.eq_false_or_eq_true (addAvailableSource st s).startTimeout with h | h
        · rcases hst h with h4 | h4
          · exact absurd h4 (by rw [h3]; simp)
          · exact absurd h4 (by rw [h1]; simp)
        · exact h
      | timeoutFire =>
        show (timeoutFires p.1 st).disabled = true ∧
          (timeoutFires p.1 st).interval = false ∧
          (timeoutFires p.1 st).startTimeout = false
        unfold timeoutFires
        rw [h3]
        simp only [Bool.false_eq_true, if_false]
        exact ⟨h1, h2, h3⟩
      | tick =>
        show (rotationTick st).disabled = true ∧
          (rotationTick st).interval = false ∧
          (rotationTick st).startTimeout = false
        unfold rotationTick
        rw [h2]
        simp only [if_pos rfl]
        exact ⟨h1, h2, h3⟩
      | select sel =>
        show (handleImageSourceChange st sel).disabled = true ∧
          (handleImageSourceChange st sel).interval = false ∧
          (handleImageSourceChange st sel).startTimeout = false
        unfold handleImageSourceChange stopAutoRotation
        cases sel with
        | none => exact ⟨rfl, rfl, rfl⟩
        | some s => exact ⟨rfl, rfl, rfl⟩
      | load =>
        exact absurd hp (hev p (List.mem_cons_self _ _))
    exact ih (rotStep p.1 st p.2) hstep.1 hstep.2.1 hstep.2.2
      (fun q hq => hev q (List.mem_cons_of_mem _ hq))

/-- **C4.** In every reachable rotation-controller state of one session:
auto-rotation is never running with fewer than two fully loaded providers
in `availableSources`; and the instant the user manually selects a provider
(`handleImageSourceChange`), rotation stops — pending delayed start
included — and neither the interval nor a pending start ever comes back for
any later events until a new user is loaded. -/
theorem autoRotation_never_underfull_and_stops (st : RotState)
    (h : RotReachable st) :
    (st.interval = true → 2 ≤ st.available.length) ∧
    (∀ (sel : Option String),
      (handleImageSourceChange st sel).interval = false ∧
      (handleImageSourceChange st sel).startTimeout = false ∧
      (handleImageSourceChange st sel).disabled = true) ∧
    (∀ (sel : Option String) (evs : List (Bool × RotEvent)),
      (∀ p ∈ evs, p.2 ≠ RotEvent.load) →
      (runEvents evs (handleImageSourceChange st sel)).interval = false ∧
      (runEvents evs (handleImageSourceChange st sel)).startTimeout = false) := by
  have hinv := rotInv_reachable h
  refine ⟨fun hrun => (hinv.1 hrun).1, ?_, ?_⟩
  · intro sel
    cases sel with
    | none => exact ⟨rfl, rfl, rfl⟩
    | some s => exact ⟨rfl, rfl, rfl⟩
  · intro sel evs hev
    have hbase : (handleImageSourceChange st sel).disabled = true ∧
        (handleImageSourceChange st sel).interval = false ∧
        (handleImageSourceChange st sel).startTimeout = false := by
      cases sel with
      | none => exact ⟨rfl, rfl, rfl⟩
      | some s => exact ⟨rfl, rfl, rfl⟩
    obtain ⟨_, h2, h3⟩ :=
      stopped_forever evs (handleImageSourceChange st sel) hbase.1 hbase.2.1 hbase.2.2 hev
    exact ⟨h2, h3⟩

/-- Witness for C4: from the initial state after iTunes and Discogs finish
loading, selecting Discogs stops rotation and a later completed provider,
timer events and ticks never restart it. -/
theorem autoRotation_never_underfull_and_stops_witness :
    RotReachable (rotStep false (rotStep false initialRotState
      (RotEvent.add "ITUNES")) (RotEvent.add "DISCOGS")) ∧
    (((rotStep false (rotStep false initialRotState
        (RotEvent.add "ITUNES")) (RotEvent.add "DISCOGS")).interval = true →
      2 ≤ (rotStep false (rotStep false initialRotState
        (RotEvent.add "ITUNES")) (RotEvent.add "DISCOGS")).available.length) ∧
    (∀ (sel : Option String),
      (handleImageSourceChange (rotStep false (rotStep false initialRotState
        (RotEvent.add "ITUNES")) (RotEvent.add "DISCOGS")) sel).interval = false ∧
      (handleImageSourceChange (rotStep false (rotStep false initialRotState
        (RotEvent.add "ITUNES")) (RotEvent.add "DISCOGS")) sel).startTimeout = false ∧
      (handleImageSourceChange (rotStep false (rotStep false initialRotState
        (RotEvent.add "ITUNES")) (RotEvent.add "DISCOGS")) sel).disabled = true) ∧
    (∀ (sel : Option String) (evs : List (Bool × RotEvent)),
      (∀ p ∈ evs, p.2 ≠ RotEvent.load) →
      (runEvents evs (handleImageSourceChange (rotStep false (rotStep false initialRotState
        (RotEvent.add "ITUNES")) (RotEvent.add "DISCOGS")) sel)).interval = false ∧
      (runEvents evs (handleImageSourceChange (rotStep false (rotStep false initialRotState
        (RotEvent.add "ITUNES")) (RotEvent.add "DISCOGS")) sel)).startTimeout = false)) :=
  ⟨RotReachable.step false (RotEvent.add "DISCOGS")
      (RotReachable.step false (RotEvent.add "ITUNES") RotReachable.init),
    autoRotation_never_underfull_and_stops _
      (RotReachable.step false (RotEvent.add "DISCOGS")
        (RotReachable.step false (RotEvent.add "ITUNES") RotReachable.init))⟩

/-- **C10.** Whenever the rotation timer fires in a reachable state with the
interval running, the updated `autoRotationSourceIndex` stays within
`[0, availableSources.length - 1]`, so `availableSources[index]` is a
defined provider tag; `availableSources` never shrinks on any event except
the user switch, which empties it and stops rotation together. -/
theorem autoRotationTick_index_in_bounds (st : RotState) (h : RotReachable st)
    (hrun : st.interval = true) :
    (0 ≤ (rotationTick st).index ∧
      (rotationTick st).index ≤ ((rotationTick st).available.length : ℤ) - 1 ∧
      ((rotationTick st).available.get? (rotationTick st).index.toNat).isSome = true) ∧
    (∀ (reduced : Bool) (e : RotEvent), e ≠ RotEvent.load →
      st.available.length ≤ (rotStep reduced st e).available.length) ∧
    (loadUserReset st).available = [] ∧ (loadUserReset st).interval = false := by
  have hinv := rotInv_reachable h
  have hinv2 := rotInv_step true RotEvent.tick st hinv
  have htick : (rotationTick st).interval = true := by
    unfold rotationTick
    rw [hrun]
    rfl
  obtain ⟨h2, h0, h1, _⟩ := hinv2.1 htick
  refine ⟨⟨h0, h1, ?_⟩, ?_, rfl, rfl⟩
  · have h0' : 0 ≤ (rotationTick st).index := h0
    have h1' : (rotationTick st).index ≤ ((rotationTick st).available.length : ℤ) - 1 := h1
    have hlen : (rotationTick st).index.toNat < (rotationTick st).available.length := by
      omega
    simp [List.get?_eq_getElem?, List.getElem?_eq_getElem hlen]
  · intro reduced e he
    cases e with
    | add s => exact (addAvailableSource_fields st s).2.2.2.2.1
    | timeoutFire =>
      show st.available.length ≤ (timeoutFires reduced st).available.length
      unfold timeoutFires startAutoRotation
      split
      · split
        · exact Nat.le_refl _
        · split
          · exact Nat.le_refl _
          · exact Nat.le_refl _
      · exact Nat.le_refl _
    | tick =>
      show st.available.length ≤ (rotationTick st).available.length
      unfold rotationTick
      split
      · exact Nat.le_refl _
      · exact Nat.le_refl _
    | select sel =>
      show st.available.length ≤ (handleImageSourceChange st sel).available.length
      unfold handleImageSourceChange stopAutoRotation
      cases sel with
      | none => exact Nat.le_refl _
      | some s => exact Nat.le_refl _
    | load => exact absurd rfl he

/-- Witness for C10: rotation running over two available sources right
after the start timeout fired. -/
theorem autoRotationTick_index_in_bounds_witness :
    (RotReachable (rotStep false (rotStep false (rotStep false initialRotState
        (RotEvent.add "ITUNES")) (RotEvent.add "DISCOGS")) RotEvent.timeoutFire) ∧
      (rotStep false (rotStep false (rotStep false initialRotState
        (RotEvent.add "ITUNES")) (RotEvent.add "DISCOGS"))
        RotEvent.timeoutFire).interval = true) ∧
    ((0 ≤ (rotationTick (rotStep false (rotStep false (rotStep false initialRotState
        (RotEvent.add "ITUNES")) (RotEvent.add "DISCOGS")) RotEvent.timeoutFire)).index ∧
      (rotationTick (rotStep false (rotStep false (rotStep false initialRotState
        (RotEvent.add "ITUNES")) (RotEvent.add "DISCOGS")) RotEvent.timeoutFire)).index ≤
        (((rotationTick (rotStep false (rotStep false (rotStep false initialRotState
          (RotEvent.add "ITUNES")) (RotEvent.add "DISCOGS"))
          RotEvent.timeoutFire)).available.length : ℤ)) - 1 ∧
      ((rotationTick (rotStep false (rotStep false (rotStep false initialRotState
        (RotEvent.add "ITUNES")) (RotEvent.add "DISCOGS")) RotEvent.timeoutFire)).available.get?
        (rotationTick (rotStep false (rotStep false (rotStep false initialRotState
          (RotEvent.add "ITUNES")) (RotEvent.add "DISCOGS"))
          RotEvent.timeoutFire)).index.toNat).isSome = true) ∧
    (∀ (reduced : Bool) (e : RotEvent), e ≠ RotEvent.load →
      (rotStep false (rotStep false (rotStep false initialRotState
        (RotEvent.add "ITUNES")) (RotEvent.add "DISCOGS"))
        RotEvent.timeoutFire).available.length ≤
      (rotStep reduced (rotStep false (rotStep false (rotStep false initialRotState
        (RotEvent.add "ITUNES")) (RotEvent.add "DISCOGS"))
        RotEvent.timeoutFire) e).available.length) ∧
    (loadUserReset (rotStep false (rotStep false (rotStep false initialRotState
      (RotEvent.add "ITUNES")) (RotEvent.add "DISCOGS"))
      RotEvent.timeoutFire)).available = [] ∧
    (loadUserReset (rotStep false (rotStep false (rotStep false initialRotState
      (RotEvent.add "ITUNES")) (RotEvent.add "DISCOGS"))
      RotEvent.timeoutFire)).interval = false) :=
  ⟨⟨RotReachable.step false RotEvent.timeoutFire
      (RotReachable.step false (RotEvent.add "DISCOGS")
        (RotReachable.step false (RotEvent.add "ITUNES") RotReachable.init)),
    by decide⟩,
    autoRotationTick_index_in_bounds _
      (RotReachable.step false RotEvent.timeoutFire
        (RotReachable.step false (RotEvent.add "DISCOGS")
          (RotReachable.step false (RotEvent.add "ITUNES") RotReachable.init)))
      (by decide)⟩

/-! ### C8: the metadata resolver (`getMusicBrainzData`) -/

/-- One entry of a MusicBrainz search response's `artists` array (fields
`getMusicBrainzData` reads; either may be absent). -/
structure MbArtistEntry where
  id : Option String
  name : Option String
deriving DecidableEq, Repr

/-- A MusicBrainz search response body; a missing `artists` property behaves
like an empty array (both skip the extraction). -/
structure MbSearchBody where
  artists : List MbArtistEntry
deriving DecidableEq, Repr

/-- One URL relation of a MusicBrainz artist-lookup body. `urlResource`
flattens `rel.url && rel.url.resource`: `none` when either is absent. -/
structure MbRel where
  relType : String
  urlResource : Option String
deriving DecidableEq, Repr

/-- A MusicBrainz artist-lookup response body; a missing `relations`
property behaves like an empty array. -/
structure MbLookupBody where
  name : Option String
  relations : List MbRel
deriving DecidableEq, Repr

/-- One observed `fetch` outcome: the promise rejected (or a later `json()`
parse threw, encoded as `body = none`), or an HTTP response with a status
code and parsed body. -/
inductive MbResp (α : Type) where
  | netError : MbResp α
  | http (status : Nat) (body : Option α) : MbResp α

/-- The HTTP status of a response, when one arrived. -/
def respStatus {α : Type} : MbResp α → Option Nat
  | .netError => none
  | .http s _ => some s

/-- The network as `getMusicBrainzData` can observe it in one call: the
search fetch, the search retry fetch, and the lookup (and its retry) for
whichever MBID is requested. Rate-limiter waits and header updates only
affect timing and are elided. -/
structure MbEnv where
  search : MbResp MbSearchBody
  searchRetry : MbResp MbSearchBody
  lookup : String → MbResp MbLookupBody
  lookupRetry : String → MbResp MbLookupBody

/-- The regex `/discogs\.com\/artist\/(\d+)/`: leftmost occurrence of the
literal followed by at least one digit; the capture is the maximal digit
run. -/
def discogsArtistMatch : List Char → Option String
  | [] => none
  | c :: rest =>
      if ("discogs.com/artist/".data).isPrefixOf (c :: rest) then
        if ((c :: rest).drop "discogs.com/artist/".data.length).takeWhile
            Char.isDigit = [] then
          discogsArtistMatch rest
        else
          some ⟨((c :: rest).drop "discogs.com/artist/".data.length).takeWhile
            Char.isDigit⟩
      else discogsArtistMatch rest

/-- The relations loop of `getMusicBrainzData`: first `discogs`-typed
relation whose resource URL matches the Discogs artist pattern wins. -/
def extractDiscogsId : List MbRel → Option String
  | [] => none
  | r :: rest =>
      if r.relType = "discogs" then
        match r.urlResource with
        | some res =>
            if res ≠ "" then
              match discogsArtistMatch res.data with
              | some d => some d
              | none => extractDiscogsId rest
            else extractDiscogsId rest
        | none => extractDiscogsId rest
      else extractDiscogsId rest

/-- The search-result processing: take the first candidate, verify its name
matches the query case-insensitively, and only then adopt its id. -/
def searchExtract (artistName : String) (body : MbSearchBody) : Option String :=
  match body.artists with
  | [] => none
  | a :: _ =>
      match a.name with
      | some n =>
          if n ≠ "" ∧ jsToLower n = jsToLower artistName then a.id else none
      | none => none

/-- The name-search step of `getMusicBrainzData` (run only when no usable
MBID was supplied): one fetch, with a single retry only on a 429 response;
any failure leaves the MBID unset. Returns the MBID found (if any) and
whether a retry fetch was performed. -/
def searchStage (env : MbEnv) (artistName : String) : Option String × Bool :=
  match env.search with
  | .netError => (none, false)
  | .http status body =>
      if status = 429 then
        match env.searchRetry with
        | .netError => (none, true)
        | .http rs rb =>
            if 200 ≤ rs ∧ rs < 300 then
              match rb with
              | some b => (searchExtract artistName b, true)
              | none => (none, true)
            else (none, true)
      else if 200 ≤ status ∧ status < 300 then
        match body with
        | some b => (searchExtract artistName b, false)
        | none => (none, false)
      else (none, false)

/-- The name-mismatch test of the lookup step:
`data.name && data.name.toLowerCase() !== artistName.toLowerCase()`. -/
def nameMismatch (artistName : String) : Option String → Bool
  | none => false
  | some n => decide (n ≠ "") && decide (jsToLower n ≠ jsToLower artistName)

/-- Processing of one successful lookup body: reject the whole resolution
on a canonical-name mismatch, otherwise keep the MBID and extract the
Discogs id from the relations. -/
def lookupBodyResult (artistName m : String) (b : MbLookupBody) :
    Option String × Option String :=
  if nameMismatch artistName b.name then (none, none)
  else (some m, extractDiscogsId b.relations)

/-- The relations-lookup step of `getMusicBrainzData` for a confirmed MBID
`m`: one fetch with a single retry only on 429; every failure path keeps the
MBID and a null Discogs id. Returns ((mbid, discogsId), retried). -/
def lookupStage (env : MbEnv) (artistName m : String) :
    (Option String × Option String) × Bool :=
  match env.lookup m with
  | .netError => ((some m, none), false)
  | .http status body =>
      if status = 429 then
        match env.lookupRetry m with
        | .netError => ((some m, none), true)
        | .http rs rb =>
            if 200 ≤ rs ∧ rs < 300 then
              match rb with
              | some b => (lookupBodyResult artistName m b, true)
              | none => ((some m, none), true)
            else ((some m, none), true)
      else if 200 ≤ status ∧ status < 300 then
        match body with
        | some b => (lookupBodyResult artistName m b, false)
        | none => ((some m, none), false)
      else ((some m, none), false)

/-- Result of one `getMusicBrainzData` call, with the per-stage retry
flags. -/
structure MbOutcome where
  mbid : Option String
  discogsId : Option String
  searchRetried : Bool
  lookupRetried : Bool
deriving DecidableEq, Repr

/-- `getMusicBrainzData` from `app.js`: search by name when no usable MBID
was supplied (`!mbid || mbid.length === 0`); bail out with nulls when no
MBID was confirmed; otherwise run the relations lookup. Total by
construction — every failure shape of the environment lands in a null or
partial result. -/
def getMusicBrainzData (env : MbEnv) (artistName : String)
    (mbid : Option String) : MbOutcome :=
  if jsTruthy mbid then
    match mbid with
    | some m =>
        ⟨(lookupStage env artistName m).1.1, (lookupStage env artistName m).1.2,
          false, (lookupStage env artistName m).2⟩
    | none => ⟨none, none, false, false⟩
  else
    match (searchStage env artistName).1 with
    | none => ⟨none, none, (searchStage env artistName).2, false⟩
    | some m =>
        if m = "" then ⟨none, none, (searchStage env artistName).2, false⟩
        else
          ⟨(lookupStage env artistName m).1.1, (lookupStage env artistName m).1.2,
            (searchStage env artistName).2, (lookupStage env artistName m).2⟩

theorem searchStage_direct {env : MbEnv} {artistName : String} {s : Nat}
    {b : MbSearchBody} (h : env.search = MbResp.http s (some b)) (h429 : s ≠ 429)
    (hok : 200 ≤ s ∧ s < 300) :
    searchStage env artistName = (searchExtract artistName b, false) := by
  unfold searchStage
  rw [h]
  dsimp only
  rw [if_neg h429, if_pos hok]

theorem searchStage_retry {env : MbEnv} {artistName : String}
    {b0 : Option MbSearchBody} {rs : Nat} {b : MbSearchBody}
    (h : env.search = MbResp.http 429 b0)
    (hr : env.searchRetry = MbResp.http rs (some b)) (hok : 200 ≤ rs ∧ rs < 300) :
    searchStage env artistName = (searchExtract artistName b, true) := by
  unfold searchStage
  rw [h]
  dsimp only
  rw [if_pos rfl, hr]
  dsimp only
  rw [if_pos hok]

theorem searchExtract_mismatch {artistName : String} {b : MbSearchBody}
    {a : MbArtistEntry} {rest : List MbArtistEntry} {n : String}
    (hart : b.artists = a :: rest) (hn : a.name = some n) (_hne : n ≠ "")
    (hmm : jsToLower n ≠ jsToLower artistName) :
    searchExtract artistName b = none := by
  unfold searchExtract
  rw [hart]
  dsimp only
  rw [hn]
  dsimp only
  rw [if_neg]
  intro hcond
  exact hmm hcond.2

theorem lookupStage_direct {env : MbEnv} {artistName m : String} {s : Nat}
    {b : MbLookupBody} (h : env.lookup m = MbResp.http s (some b)) (h429 : s ≠ 429)
    (hok : 200 ≤ s ∧ s < 300) :
    lookupStage env artistName m = (lookupBodyResult artistName m b, false) := by
  unfold lookupStage
  rw [h]
  dsimp only
  rw [if_neg h429, if_pos hok]

theorem lookupStage_retry {env : MbEnv} {artistName m : String}
    {b0 : Option MbLookupBody} {rs : Nat} {b : MbLookupBody}
    (h : env.lookup m = MbResp.http 429 b0)
    (hr : env.lookupRetry m = MbResp.http rs (some b)) (hok : 200 ≤ rs ∧ rs < 300) :
    lookupStage env artistName m = (lookupBodyResult artistName m b, true) := by
  unfold lookupStage
  rw [h]
  dsimp only
  rw [if_pos rfl, hr]
  dsimp only
  rw [if_pos hok]

theorem lookupBodyResult_mismatch {artistName m : String} {b : MbLookupBody}
    {n : String} (hn : b.name = some n) (hne : n ≠ "")
    (hmm : jsToLower n ≠ jsToLower artistName) :
    lookupBodyResult artistName m b = (none, none) := by
  have hcond : nameMismatch artistName b.name = true := by
    rw [hn]
    unfold nameMismatch
    simp [hne, hmm]
  unfold lookupBodyResult
  rw [if_pos hcond]

theorem getMusicBrainzData_knownMbid (env : MbEnv) (artistName m : String)
    (hne : m ≠ "") :
    getMusicBrainzData env artistName (some m) =
      ⟨(lookupStage env artistName m).1.1, (lookupStage env artistName m).1.2,
        false, (lookupStage env artistName m).2⟩ := by
  have ht : jsTruthy (some m) = true := by
    unfold jsTruthy
    simp [hne]
  unfold getMusicBrainzData
  rw [if_pos ht]

theorem searchStage_retried_only_429 (env : MbEnv) (artistName : String)
    (h : (searchStage env artistName).2 = true) :
    respStatus env.search = some 429 := by
  unfold searchStage at h
  cases henv : env.search with
  | netError =>
    rw [henv] at h
    simp at h
  | http s b =>
    rw [henv] at h
    dsimp only at h
    by_cases h429 : s = 429
    · rw [h429]
      rfl
    · rw [if_neg h429] at h
      exfalso
      by_cases hok : 200 ≤ s ∧ s < 300
      · rw [if_pos hok] at h
        cases b with
        | none => simp at h
        | some bb => simp at h
      · rw [if_neg hok] at h
        simp at h

theorem lookupStage_retried_only_429 (env : MbEnv) (artistName m : String)
    (h : (lookupStage env artistName m).2 = true) :
    respStatus (env.lookup m) = some 429 := by
  unfold lookupStage at h
  cases henv : env.lookup m with
  | netError =>
    rw [henv] at h
    simp at h
  | http s b =>
    rw [henv] at h
    dsimp only at h
    by_cases h429 : s = 429
    · rw [h429]
      rfl
    · rw [if_neg h429] at h
      exfalso
      by_cases hok : 200 ≤ s ∧ s < 300
      · rw [if_pos hok] at h
        cases b with
        | none => simp at h
        | some bb => simp at h
      · rw [if_neg hok] at h
        simp at h

/-- The concrete environment for the C8 counterexample: both the search and
the lookup respond 429 first and succeed (with matching names) on retry, so
one resolution performs two retried fetches. -/
def c8env : MbEnv where
  search := MbResp.http 429 none
  searchRetry := MbResp.http 200
    (some ⟨[⟨some "mbid1", some "radiohead"⟩]⟩)
  lookup := fun m =>
    if m = "mbid1" then MbResp.http 429 none else MbResp.netError
  lookupRetry := fun m =>
    if m = "mbid1" then MbResp.http 200 (some ⟨some "Radiohead", []⟩)
    else MbResp.netError

/-- **C8 counterexample.** A single resolution can perform two retried
fetches (one in the search step and one in the relations-lookup step) when
both steps hit a 429 — so "at most one retry is performed" per resolution
is false; each retry is per step. -/
theorem getMusicBrainzData_two_retries :
    (getMusicBrainzData c8env "Radiohead" none).searchRetried = true ∧
    (getMusicBrainzData c8env "Radiohead" none).lookupRetried = true ∧
    (getMusicBrainzData c8env "Radiohead" none).mbid = some "mbid1" := by
  decide

/-- **C8 (amended).** For every artist name and optional known identifier,
the metadata resolver is a total function of the observed network
environment into `{mbid, discogsId}` (never throws — every failure shape
lands in a null or partial result); whenever the provider's returned
canonical name differs from the queried artist name under case-insensitive
comparison — in the name-search step, directly or after its retry, or in
the relations-lookup step, directly or after its retry — the whole
resolution returns `{mbid: null, discogsId: null}` rather than a guessed
identifier; and **each of the two steps** performs at most one retry
(structurally), only on an explicit rate-limit (429) response. -/
theorem getMusicBrainzData_contract (env : MbEnv) (artistName : String)
    (mbid : Option String) :
    (jsTruthy mbid = false →
      ∀ (s : Nat) (b : MbSearchBody) (a : MbArtistEntry) (rest : List MbArtistEntry),
      env.search = MbResp.http s (some b) → s ≠ 429 → 200 ≤ s ∧ s < 300 →
      b.artists = a :: rest → ∀ n, a.name = some n → n ≠ "" →
      jsToLower n ≠ jsToLower artistName →
      getMusicBrainzData env artistName mbid = ⟨none, none, false, false⟩) ∧
    (jsTruthy mbid = false →
      ∀ (b0 : Option MbSearchBody) (rs : Nat) (b : MbSearchBody)
        (a : MbArtistEntry) (rest : List MbArtistEntry),
      env.search = MbResp.http 429 b0 →
      env.searchRetry = MbResp.http rs (some b) → 200 ≤ rs ∧ rs < 300 →
      b.artists = a :: rest → ∀ n, a.name = some n → n ≠ "" →
      jsToLower n ≠ jsToLower artistName →
      getMusicBrainzData env artistName mbid = ⟨none, none, true, false⟩) ∧
    (∀ m, mbid = some m → m ≠ "" →
      ∀ (s : Nat) (b : MbLookupBody),
      env.lookup m = MbResp.http s (some b) → s ≠ 429 → 200 ≤ s ∧ s < 300 →
      ∀ n, b.name = some n → n ≠ "" → jsToLower n ≠ jsToLower artistName →
      getMusicBrainzData env artistName mbid = ⟨none, none, false, false⟩) ∧
    (∀ m, mbid = some m → m ≠ "" →
      ∀ (b0 : Option MbLookupBody) (rs : Nat) (b : MbLookupBody),
      env.lookup m = MbResp.http 429 b0 →
      env.lookupRetry m = MbResp.http rs (some b) → 200 ≤ rs ∧ rs < 300 →
      ∀ n, b.name = some n → n ≠ "" → jsToLower n ≠ jsToLower artistName →
      getMusicBrainzData env artistName mbid = ⟨none, none, false, true⟩) ∧
    ((searchStage env artistName).2 = true → respStatus env.search = some 429) ∧
    (∀ m, (lookupStage env artistName m).2 = true →
      respStatus (env.lookup m) = some 429) := by
  refine ⟨?_, ?_, ?_, ?_, searchStage_retried_only_429 env artistName,
    fun m => lookupStage_retried_only_429 env artistName m⟩
  · intro hmb s b a rest hs h429 hok hart n hn hne hmm
    have hstage : searchStage env artistName = (none, false) := by
      rw [searchStage_direct hs h429 hok,
        searchExtract_mismatch hart hn hne hmm]
    unfold getMusicBrainzData
    rw [hmb]
    simp only [Bool.false_eq_true, if_false, hstage]
  · intro hmb b0 rs b a rest hs hr hok hart n hn hne hmm
    have hstage : searchStage env artistName = (none, true) := by
      rw [searchStage_retry hs hr hok,
        searchExtract_mismatch hart hn hne hmm]
    unfold getMusicBrainzData
    rw [hmb]
    simp only [Bool.false_eq_true, if_false, hstage]
  · intro m hm hmne s b hs h429 hok n hn hne hmm
    have hstage : lookupStage env artistName m = ((none, none), false) := by
      rw [lookupStage_direct hs h429 hok,
        lookupBodyResult_mismatch hn hne hmm]
    rw [hm, getMusicBrainzData_knownMbid env artistName m hmne, hstage]
  · intro m hm hmne b0 rs b hs hr hok n hn hne hmm
    have hstage : lookupStage env artistName m = ((none, none), true) := by
      rw [lookupStage_retry hs hr hok,
        lookupBodyResult_mismatch hn hne hmm]
    rw [hm, getMusicBrainzData_knownMbid env artistName m hmne, hstage]

/-- Witness for C8 (amended): a known MBID whose lookup responds with a
different canonical name yields the all-null resolution. -/
theorem getMusicBrainzData_contract_witness :
    (jsTruthy (some "mbid9") = true) ∧
    (((jsTruthy (some "mbid9") = false →
      ∀ (s : Nat) (b : MbSearchBody) (a : MbArtistEntry) (rest : List MbArtistEntry),
      (MbEnv.mk MbResp.netError MbResp.netError
        (fun _ => MbResp.http 200 (some ⟨some "Other Artist", []⟩))
        (fun _ => MbResp.netError)).search = MbResp.http s (some b) → s ≠ 429 →
        200 ≤ s ∧ s < 300 →
      b.artists = a :: rest → ∀ n, a.name = some n → n ≠ "" →
      jsToLower n ≠ jsToLower "Radiohead" →
      getMusicBrainzData (MbEnv.mk MbResp.netError MbResp.netError
        (fun _ => MbResp.http 200 (some ⟨some "Other Artist", []⟩))
        (fun _ => MbResp.netError)) "Radiohead" (some "mbid9") =
        ⟨none, none, false, false⟩) ∧
    (jsTruthy (some "mbid9") = false →
      ∀ (b0 : Option MbSearchBody) (rs : Nat) (b : MbSearchBody)
        (a : MbArtistEntry) (rest : List MbArtistEntry),
      (MbEnv.mk MbResp.netError MbResp.netError
        (fun _ => MbResp.http 200 (some ⟨some "Other Artist", []⟩))
        (fun _ => MbResp.netError)).search = MbResp.http 429 b0 →
      (MbEnv.mk MbResp.netError MbResp.netError
        (fun _ => MbResp.http 200 (some ⟨some "Other Artist", []⟩))
        (fun _ => MbResp.netError)).searchRetry = MbResp.http rs (some b) →
        200 ≤ rs ∧ rs < 300 →
      b.artists = a :: rest → ∀ n, a.name = some n → n ≠ "" →
      jsToLower n ≠ jsToLower "Radiohead" →
      getMusicBrainzData (MbEnv.mk MbResp.netError MbResp.netError
        (fun _ => MbResp.http 200 (some ⟨some "Other Artist", []⟩))
        (fun _ => MbResp.netError)) "Radiohead" (some "mbid9") =
        ⟨none, none, true, false⟩) ∧
    (∀ m, (some "mbid9" : Option String) = some m → m ≠ "" →
      ∀ (s : Nat) (b : MbLookupBody),
      (MbEnv.mk MbResp.netError MbResp.netError
        (fun _ => MbResp.http 200 (some ⟨some "Other Artist", []⟩))
        (fun _ => MbResp.netError)).lookup m = MbResp.http s (some b) → s ≠ 429 →
        200 ≤ s ∧ s < 300 →
      ∀ n, b.name = some n → n ≠ "" → jsToLower n ≠ jsToLower "Radiohead" →
      getMusicBrainzData (MbEnv.mk MbResp.netError MbResp.netError
        (fun _ => MbResp.http 200 (some ⟨some "Other Artist", []⟩))
        (fun _ => MbResp.netError)) "Radiohead" (some "mbid9") =
        ⟨none, none, false, false⟩) ∧
    (∀ m, (some "mbid9" : Option String) = some m → m ≠ "" →
      ∀ (b0 : Option MbLookupBody) (rs : Nat) (b : MbLookupBody),
      (MbEnv.mk MbResp.netError MbResp.netError
        (fun _ => MbResp.http 200 (some ⟨some "Other Artist", []⟩))
        (fun _ => MbResp.netError)).lookup m = MbResp.http 429 b0 →
      (MbEnv.mk MbResp.netError MbResp.netError
        (fun _ => MbResp.http 200 (some ⟨some "Other Artist", []⟩))
        (fun _ => MbResp.netError)).lookupRetry m = MbResp.http rs (some b) →
        200 ≤ rs ∧ rs < 300 →
      ∀ n, b.name = some n → n ≠ "" → jsToLower n ≠ jsToLower "Radiohead" →
      getMusicBrainzData (MbEnv.mk MbResp.netError MbResp.netError
        (fun _ => MbResp.http 200 (some ⟨some "Other Artist", []⟩))
        (fun _ => MbResp.netError)) "Radiohead" (some "mbid9") =
        ⟨none, none, false, true⟩) ∧
    ((searchStage (MbEnv.mk MbResp.netError MbResp.netError
        (fun _ => MbResp.http 200 (some ⟨some "Other Artist", []⟩))
        (fun _ => MbResp.netError)) "Radiohead").2 = true →
      respStatus (MbEnv.mk MbResp.netError MbResp.netError
        (fun _ => MbResp.http 200 (some ⟨some "Other Artist", []⟩))
        (fun _ => MbResp.netError)).search = some 429) ∧
    (∀ m, (lookupStage (MbEnv.mk MbResp.netError MbResp.netError
        (fun _ => MbResp.http 200 (some ⟨some "Other Artist", []⟩))
        (fun _ => MbResp.netError)) "Radiohead" m).2 = true →
      respStatus ((MbEnv.mk MbResp.netError MbResp.netError
        (fun _ => MbResp.http 200 (some ⟨some "Other Artist", []⟩))
        (fun _ => MbResp.netError)).lookup m) = some 429)) ∧
    getMusicBrainzData (MbEnv.mk MbResp.netError MbResp.netError
        (fun _ => MbResp.http 200 (some ⟨some "Other Artist", []⟩))
        (fun _ => MbResp.netError)) "Radiohead" (some "mbid9") =
      ⟨none, none, false, false⟩) :=
  ⟨by decide,
    getMusicBrainzData_contract (MbEnv.mk MbResp.netError MbResp.netError
      (fun _ => MbResp.http 200 (some ⟨some "Other Artist", []⟩))
      (fun _ => MbResp.netError)) "Radiohead" (some "mbid9"),
    by decide⟩

end MusicApp
